import Mathlib

/-!
MotorMC login-phase handler (`src/listening/phd/login.c`)

A shallow embedding of the login packet handlers.  Bytes are natural numbers,
C integers are `Int`.  Every collaborator that lives outside `login.c` and
`crypt/rsa.h` (packet codec, chat formatting, RSA, AES, SHA-1, cURL, mjson,
server configuration) is a field of `Env`, so the theorems hold for every
implementation of those collaborators.  Effects that the handlers perform on
the outside world (sending a packet, reading bytes, decrypting, the HTTPS
request, logging, the play-phase join hook) are appended, in program order, to
`World.events`.  One handler runs at a time: the mutex around the shared cURL
handle is not part of the model, and memory management is left out.
-/

namespace MotorMC

/-! ## Data model -/

/-- Modelled from the spec: `string_t`, declared outside the given sources: a
length field and the bytes `value` points to. -/
structure string_t where
  length : Int
  value : List Nat
deriving DecidableEq

/-- Modelled from the spec: the connection phases (`ltg_state` of the absent
`listening.h`); `login.c` names only `ltg_play`. -/
inductive ltg_state where
  | ltg_handshake
  | ltg_status
  | ltg_login
  | ltg_play
deriving DecidableEq

/-- Modelled from the spec: the member `client->encryption` of the absent
`listening.h`: the flag and the two cipher streams. -/
structure ltg_encryption_t where
  enabled : Bool
  encrypt : List Nat
  decrypt : List Nat
deriving DecidableEq

/-- Modelled from the spec: the member `client->textures` of the absent
`listening.h`: the textures value and its signature. -/
structure ltg_textures_t where
  value : string_t
  signature : string_t
deriving DecidableEq

/-- Modelled from the spec: `ltg_client_t` of the absent `listening.h`, with the
fields that `login.c` reads or writes; `id` is the verify token. -/
structure ltg_client_t where
  id : Nat
  protocol : Int
  state : ltg_state
  username : string_t
  uuid : List Nat
  compression_enabled : Bool
  encryption : ltg_encryption_t
  textures : ltg_textures_t
deriving DecidableEq

/-- Source: the member `ASN1` of `cry_rsa_keypair_t` (rsa.h:12): an 8-bit
length bit-field and a 256-byte array. -/
structure cry_asn1_t where
  length : Fin 256
  bytes : List Nat
  bytes_size : bytes.length = 256

/-- Source: `cry_rsa_keypair_t` (rsa.h:7); the `mpz_t` numbers are naturals. -/
structure cry_rsa_keypair_t where
  d : Nat
  n : Nat
  ASN1 : cry_asn1_t

/-- Source: `cry_get_asn1_length` (rsa.h:25). -/
def cry_get_asn1_length (keypair : cry_rsa_keypair_t) : Nat :=
  keypair.ASN1.length.val

/-- Source: `cry_get_asn1_bytes` (rsa.h:31). -/
def cry_get_asn1_bytes (keypair : cry_rsa_keypair_t) : List Nat :=
  keypair.ASN1.bytes

/-- Modelled from the spec: `pck_packet_t` of the absent packet codec, as the
handlers read it: its bytes and the read cursor. -/
structure pck_packet_t where
  bytes : List Nat
  cursor : Nat
deriving DecidableEq

/-- Modelled from the spec: the field `packet->length` of the absent packet
codec. -/
def pck_packet_t.length (p : pck_packet_t) : Nat := p.bytes.length

/-- Modelled from the spec: the byte order tag handed to `PCK_INLINE`. -/
inductive io_endianness where
  | io_big_endian
  | io_little_endian
deriving DecidableEq

/-- Modelled from the spec: one write call of the absent packet codec on an
outbound packet, with the arguments of the call. -/
inductive pck_write where
  | var_int (v : Int)
  | string (value : List Nat) (length : Int)
  | bytes (data : List Nat) (length : Int)
  | int32 (v : Int)
deriving DecidableEq

/-- Modelled from the spec: an outbound packet of the absent packet codec: the
arguments of `PCK_INLINE` and the write calls made on it, in order. -/
structure pck_out_t where
  capacity : Int
  endian : io_endianness
  writes : List pck_write
deriving DecidableEq

/-- Modelled from the spec: the macro `PCK_INLINE(name, size, endian)` of the
absent packet codec: a fresh outbound packet. -/
def PCK_INLINE (size : Int) (endian : io_endianness) : pck_out_t :=
  { capacity := size, endian := endian, writes := [] }

/-- Modelled from the spec: `pck_write_var_int(packet, v)` of the absent packet
codec appends a varint. -/
def pck_write_var_int (p : pck_out_t) (v : Int) : pck_out_t :=
  { p with writes := p.writes ++ [pck_write.var_int v] }

/-- Modelled from the spec: `pck_write_string(packet, value, length)` of the
absent packet codec appends a length-prefixed string. -/
def pck_write_string (p : pck_out_t) (value : List Nat) (length : Int) : pck_out_t :=
  { p with writes := p.writes ++ [pck_write.string value length] }

/-- Modelled from the spec: `pck_write_bytes(packet, data, length)` of the absent
packet codec appends a raw byte run. -/
def pck_write_bytes (p : pck_out_t) (data : List Nat) (length : Int) : pck_out_t :=
  { p with writes := p.writes ++ [pck_write.bytes data length] }

/-- Modelled from the spec: `pck_write_int32(packet, v)` of the absent packet
codec appends a fixed-width integer in the packet's byte order. -/
def pck_write_int32 (p : pck_out_t) (v : Int) : pck_out_t :=
  { p with writes := p.writes ++ [pck_write.int32 v] }

/-- Modelled from the spec: a chat component (`cht_component_t` of the absent
`io/chat/chat.h`); only `text` is set by `login.c`. -/
structure cht_component_t where
  text : String
deriving DecidableEq

/-- Modelled from the spec: a chat translation (`cht_translation_t` of the absent
`io/chat/translation.h`): the key and the list of parameters. -/
structure cht_translation_t where
  translate : String
  with_list : List cht_component_t
deriving DecidableEq

/-- Modelled from the spec: the initialiser `cht_new` of the absent chat
library. -/
def cht_new : cht_component_t := { text := "" }

/-- Modelled from the spec: the initialiser `cht_translation_new` of the absent
chat library: no key, no parameters. -/
def cht_translation_new : cht_translation_t := { translate := "", with_list := [] }

/-- Modelled from the spec: `cht_add_with(&translation, &component)` of the
absent chat library appends one translation parameter. -/
def cht_add_with (t : cht_translation_t) (c : cht_component_t) : cht_translation_t :=
  { t with with_list := t.with_list ++ [c] }

/-- Modelled from the spec: the constant of `io/chat/translation.h`, absent
from the sources, is the key `multiplayer.disconnect.outdated_client`. -/
def cht_translation_multiplayer_disconnect_outdated_client : String :=
  "multiplayer.disconnect.outdated_client"

/-- Modelled from the spec: the constant of `io/chat/translation.h`, absent
from the sources, is the key `multiplayer.disconnect.outdated_server`. -/
def cht_translation_multiplayer_disconnect_outdated_server : String :=
  "multiplayer.disconnect.outdated_server"

/-- Modelled from the spec: `LTG_AES_KEY_LENGTH` of `listening.h`, absent from
the sources; the shared secret is 16 bytes (AES-128). -/
def LTG_AES_KEY_LENGTH : Nat := 16

/-- Modelled from the spec: a JSON value of the absent `mjson` library: objects
keep their members in document order and are accessed by index. -/
inductive mjson_val where
  | null
  | boolean (b : Bool)
  | number (n : Int)
  | string (s : List Nat)
  | array (items : List mjson_val)
  | object (members : List (List Nat × mjson_val))

/-- An effect on the outside world, in the order the handlers perform them. -/
inductive Event where
  | pck_read_bytes (length : Int)
  | cry_rsa_decrypt (src : List Nat) (length : Int)
  | cfb8_init (key : List Nat)
  | curl_easy_perform (url : List Nat)
  | ltg_send (client : ltg_client_t) (packet : pck_out_t)
  | phd_send_join_game (client : ltg_client_t)
  | log_warn
  | log_error
  | log_info
  | pck_log
deriving DecidableEq

/-- The collaborators of `login.c` that are not part of the sources. -/
structure Env where
  /-- Call `pck_read_var_int(packet)`: the value and the advanced packet. -/
  pck_read_var_int : pck_packet_t → Int × pck_packet_t
  /-- Call `pck_read_bytes(packet, dst, length)`: the bytes stored at `dst`. -/
  pck_read_bytes : pck_packet_t → Int → List Nat × pck_packet_t
  /-- Call `pck_read_int8(packet)`. -/
  pck_read_int8 : pck_packet_t → Int × pck_packet_t
  /-- Call `sky_get_protocol()`. -/
  sky_get_protocol : Int
  /-- Call `sky_is_online_mode()`. -/
  sky_is_online_mode : Bool
  /-- Call `sky_get_network_compression_threshold()`. -/
  sky_get_network_compression_threshold : Int
  /-- Call `ltg_get_rsa_keys(sky_get_listener())`. -/
  rsa_keys : cry_rsa_keypair_t
  /-- The macro `__MC_VER__`. -/
  MC_VER : String
  /-- Call `cht_write_translation(&translation, message)`: the bytes written. -/
  cht_write_translation : cht_translation_t → List Nat
  /-- Call `cry_rsa_decrypt(dst, src, length, keys)`: the contents of `dst`
  afterwards. -/
  cry_rsa_decrypt : List Nat → Int → cry_rsa_keypair_t → List Nat
  /-- Call `cfb8_init(key, &encrypt, &decrypt)` on the current streams: the
  result code and the two streams afterwards. -/
  cfb8_init : List Nat → List Nat → List Nat → Int × List Nat × List Nat
  /-- Reading the `uint32_t key` member of the `verify` union. -/
  load_uint32 : List Nat → Nat
  /-- SHA-1 through the `EVP_Digest*` calls. -/
  sha1 : List Nat → List Nat
  /-- Call `utl_to_minecraft_hex(dst, hash, length)`: the C string at `dst`. -/
  utl_to_minecraft_hex : List Nat → Nat → List Nat
  /-- Whether `curl_easy_init()` returns a handle. -/
  curl_easy_init : Bool
  /-- Call `curl_easy_perform` on a URL: `CURLcode`, HTTP status, response body. -/
  curl_easy_perform : List Nat → Int × Int × List Nat
  /-- Call `mjson_get_root(mjson_read(body, length))`. -/
  mjson_read : List Nat → mjson_val
  /-- Call `utl_read_hex_bytes(dst, hex, n)`: the `n` bytes stored at `dst`. -/
  utl_read_hex_bytes : List Nat → Nat → List Nat

/-- Everything a handler can read or change: the client, the inbound packet,
whether the shared `phd_authRequest.curl` handle exists, and the effects
performed so far. -/
structure World where
  client : ltg_client_t
  packet : pck_packet_t
  curl : Bool
  events : List Event
deriving DecidableEq

/-- Appends one effect to the log. -/
def World.emit (w : World) (e : Event) : World :=
  { w with events := w.events ++ [e] }

/-- Modelled from the spec: `ltg_send(client, packet)` of the absent listener
hands a packet to the connection; the client is recorded as it is at the
moment of the call. -/
def ltg_send (w : World) (packet : pck_out_t) : World :=
  w.emit (Event.ltg_send w.client packet)

/-- Modelled from the spec: `ltg_client_set_username` of the absent
`listening.h` stores the username on the client. -/
def ltg_client_set_username (c : ltg_client_t) (username : string_t) : ltg_client_t :=
  { c with username := username }

/-- Modelled from the spec: `ltg_client_set_state` of the absent `listening.h`
sets the connection phase. -/
def ltg_client_set_state (c : ltg_client_t) (s : ltg_state) : ltg_client_t :=
  { c with state := s }

/-- The bytes of a C string literal, without the terminating NUL. -/
def UTL_CSTR (s : String) : List Nat := s.toList.map Char.toNat

/-! ## Outbound packets (login.c:347-432) -/

/-- Source: `phd_send_disconnect_login` (login.c:347). -/
def phd_send_disconnect_login (w : World) (message : List Nat) (message_len : Int) : World :=
  let packet := PCK_INLINE (1 + message_len) io_endianness.io_big_endian
  let packet := pck_write_var_int packet 0x00
  let packet := pck_write_string packet message message_len
  ltg_send w packet

/-- Source: `phd_send_encryption_request` (login.c:359); the verify token is
recorded with its unsigned value. -/
def phd_send_encryption_request (env : Env) (w : World) : World :=
  let response := PCK_INLINE 256 io_endianness.io_big_endian
  let response := pck_write_var_int response 0x01
  let response := pck_write_string response (UTL_CSTR "") 0
  let response := pck_write_var_int response (cry_get_asn1_length env.rsa_keys)
  let response := pck_write_bytes response (cry_get_asn1_bytes env.rsa_keys)
    (cry_get_asn1_length env.rsa_keys)
  let response := pck_write_var_int response 4
  let response := pck_write_int32 response w.client.id
  ltg_send w response

/-- Source: `phd_send_login_success` (login.c:381). -/
def phd_send_login_success (w : World) : World :=
  let response := PCK_INLINE 32 io_endianness.io_big_endian
  let response := pck_write_var_int response 0x02
  let response := pck_write_bytes response w.client.uuid 16
  let response := pck_write_string response w.client.username.value w.client.username.length
  ltg_send w response

/-- Source: `phd_send_set_compression` (login.c:393). -/
def phd_send_set_compression (env : Env) (w : World) : World :=
  let packet := PCK_INLINE 15 io_endianness.io_big_endian
  let packet := pck_write_var_int packet 0x03
  let packet := pck_write_var_int packet env.sky_get_network_compression_threshold
  let w := ltg_send w packet
  if env.sky_get_network_compression_threshold > 0 then
    { w with client := { w.client with compression_enabled := true } }
  else
    w

/-- Source: `phd_send_login_plugin_request` (login.c:407). -/
def phd_send_login_plugin_request (w : World) (identifier : List Nat)
    (identifier_length : Int) (data : List Nat) (data_length : Int) : World :=
  let packet := PCK_INLINE (identifier_length + data_length + 20) io_endianness.io_big_endian
  let packet := pck_write_var_int packet 0x04
  let packet := pck_write_var_int packet w.client.id
  let packet := pck_write_string packet identifier identifier_length
  let packet := pck_write_bytes packet data data_length
  ltg_send w packet

/-- Source: `phd_update_login_success` (login.c:421). -/
def phd_update_login_success (env : Env) (w : World) : World :=
  let w := phd_send_set_compression env w
  let w := phd_send_login_success w
  let w := { w with client := ltg_client_set_state w.client ltg_state.ltg_play }
  w.emit (Event.phd_send_join_game w.client)

/-! ## Inbound handlers (login.c:35-345) -/

/-- Source: `phd_handle_login_start` (login.c:57); the length is kept as the
varint that was read. -/
def phd_handle_login_start (env : Env) (w : World) : Bool × World :=
  let r_len := env.pck_read_var_int w.packet
  let r_val := env.pck_read_bytes r_len.2 r_len.1
  let username : string_t := { length := r_len.1, value := r_val.1 }
  let w := { w with packet := r_val.2 }
  let w := w.emit (Event.pck_read_bytes r_len.1)
  let w := { w with client := ltg_client_set_username w.client username }
  if w.client.protocol ≠ env.sky_get_protocol then
    let translation := cht_translation_new
    let translation :=
      if w.client.protocol < env.sky_get_protocol then
        { translation with translate := cht_translation_multiplayer_disconnect_outdated_client }
      else
        { translation with translate := cht_translation_multiplayer_disconnect_outdated_server }
    let version := cht_new
    let version := { version with text := env.MC_VER }
    let translation := cht_add_with translation version
    let message := env.cht_write_translation translation
    let message_len : Int := message.length
    let w := phd_send_disconnect_login w message message_len
    (false, w)
  else if env.sky_is_online_mode then
    (true, phd_send_encryption_request env w)
  else
    (true, phd_update_login_success env w)

/-- Modelled from the spec: `utl_reverse_bytes(dst, src, n)` of `util/util.h`,
absent from the sources, called with `dst = src`: the first `n` bytes are
reversed in place. -/
def utl_reverse_bytes (buf : List Nat) (n : Nat) : List Nat :=
  (buf.take n).reverse ++ buf.drop n

/-- The C string a `char*` points to: the bytes before the first NUL. -/
def c_str (b : List Nat) : List Nat := b.takeWhile (fun x => x ≠ 0)

/-- Source: the buffer `char server_id[(digest_length << 1) + 2]` (login.c:193). -/
def server_id_size (digest_length : Nat) : Nat := (digest_length <<< 1) + 2

/-- Source: the buffer `char request[98 + (digest_length << 1)]` (login.c:196). -/
def request_size (digest_length : Nat) : Nat := 98 + (digest_length <<< 1)

/-- Source: the `sprintf` of login.c:197; the characters written before the
terminating NUL. -/
def sprintf_request (username server_id : List Nat) : List Nat :=
  UTL_CSTR "https://sessionserver.mojang.com/session/minecraft/hasJoined?username="
    ++ c_str username ++ UTL_CSTR "&serverId=" ++ c_str server_id

/-- The constant `CURLE_OK` of cURL. -/
def CURLE_OK : Int := 0

/-- Modelled from the spec: `mjson_get_size` of the absent `mjson` library: the
number of members of an object, of items of an array, of bytes of a string. -/
def mjson_get_size : mjson_val → Nat
  | mjson_val.string s => s.length
  | mjson_val.array items => items.length
  | mjson_val.object members => members.length
  | _ => 0

/-- Modelled from the spec: `mjson_get_string` of the absent `mjson` library:
the bytes of a string value. -/
def mjson_get_string : mjson_val → List Nat
  | mjson_val.string s => s
  | _ => []

/-- Modelled from the spec: `mjson_obj_get(obj, i)` of the absent `mjson`
library: the `i`-th member, label and value, in document order. -/
def mjson_obj_get : mjson_val → Nat → List Nat × mjson_val
  | mjson_val.object members, i => (members.get? i).getD ([], mjson_val.null)
  | _, _ => ([], mjson_val.null)

/-- Modelled from the spec: `mjson_arr_get(arr, j)` of the absent `mjson`
library: the `j`-th item. -/
def mjson_arr_get : mjson_val → Nat → mjson_val
  | mjson_val.array items, j => (items.get? j).getD mjson_val.null
  | _, _ => mjson_val.null

/-- How a loop body ends: fall through to the next iteration, or leave the
handler with `return false`. -/
inductive Flow (σ : Type) where
  | next (s : σ)
  | ret_false (s : σ)

/-- The loop `for (uint32_t i = i0; i < i0 + n; ++i) body`: `n` iterations
remain and the counter stands at `i`. -/
def for_loop {σ : Type} (body : Nat → σ → Flow σ) : Nat → Nat → σ → Flow σ
  | 0, _, s => Flow.next s
  | n + 1, i, s =>
    match body i s with
    | Flow.next s' => for_loop body n (i + 1) s'
    | Flow.ret_false s' => Flow.ret_false s'

/-- Source: the local `enum { none, textures } property_type` (login.c:259). -/
inductive property_type_t where
  | none
  | textures
deriving DecidableEq

/-- Source: the body of the loop over `k` (login.c:268-312), one member of one
`properties` entry. -/
def phd_auth_property_body (property : mjson_val) (k : Nat)
    (s : World × property_type_t) : Flow (World × property_type_t) :=
  let prop_prop := mjson_obj_get property k
  match k with
  | 0 =>
    if c_str (mjson_get_string prop_prop.2) = UTL_CSTR "textures" then
      Flow.next (s.1, property_type_t.textures)
    else
      Flow.next s
  | 1 =>
    match s.2 with
    | property_type_t.none => Flow.ret_false (s.1.emit Event.log_error, s.2)
    | property_type_t.textures =>
      let value : string_t :=
        { length := mjson_get_size prop_prop.2,
          value := (mjson_get_string prop_prop.2).take (mjson_get_size prop_prop.2) }
      Flow.next ({ s.1 with client := { s.1.client with
        textures := { s.1.client.textures with value := value } } }, s.2)
  | 2 =>
    match s.2 with
    | property_type_t.none => Flow.ret_false (s.1.emit Event.log_error, s.2)
    | property_type_t.textures =>
      let signature : string_t :=
        { length := mjson_get_size prop_prop.2,
          value := (mjson_get_string prop_prop.2).take (mjson_get_size prop_prop.2) }
      Flow.next ({ s.1 with client := { s.1.client with
        textures := { s.1.client.textures with signature := signature } } }, s.2)
  | _ => Flow.next s

/-- Source: the body of the loop over `j` (login.c:257-315), one entry of the
`properties` array. -/
def phd_auth_properties_body (properties : mjson_val) (j : Nat) (w : World) : Flow World :=
  let property_type := property_type_t.none
  let property := mjson_arr_get properties j
  let property_size := mjson_get_size property
  match for_loop (phd_auth_property_body property) property_size 0 (w, property_type) with
  | Flow.next s => Flow.next s.1
  | Flow.ret_false s => Flow.ret_false s.1

/-- Source: the body of the loop over `i` (login.c:236-319), one top-level
member of the session server's answer. -/
def phd_auth_body (env : Env) (auth_obj : mjson_val) (i : Nat) (w : World) : Flow World :=
  let auth_prop := mjson_obj_get auth_obj i
  match i with
  | 0 =>
    Flow.next { w with client := { w.client with
      uuid := env.utl_read_hex_bytes (mjson_get_string auth_prop.2) 16 } }
  | 1 =>
    let auth_username := mjson_get_string auth_prop.2
    if w.client.username.length ≠ mjson_get_size auth_prop.2
        ∨ w.client.username.value.take w.client.username.length.toNat
          ≠ auth_username.take w.client.username.length.toNat then
      let username : string_t :=
        { length := mjson_get_size auth_prop.2,
          value := auth_username.take (mjson_get_size auth_prop.2) }
      Flow.next { w with client := { w.client with username := username } }
    else
      Flow.next w
  | 2 =>
    let auth_prop_size := mjson_get_size auth_prop.2
    for_loop (phd_auth_properties_body auth_prop.2) auth_prop_size 0 w
  | _ => Flow.next w

/-- Source: `phd_handle_encryption_response` (login.c:104). -/
def phd_handle_encryption_response (env : Env) (w : World) : Bool × World :=
  -- get shared secret
  let r_len := env.pck_read_var_int w.packet
  let secret_length := r_len.1
  let w := { w with packet := r_len.2 }
  if secret_length > 128 then
    let w := w.emit Event.log_error
    let w := { w with packet := { w.packet with cursor := w.packet.length } }
    let w := w.emit Event.pck_log
    (false, w)
  else
  let r_bytes := env.pck_read_bytes w.packet secret_length
  let w := { w with packet := r_bytes.2 }
  let w := w.emit (Event.pck_read_bytes secret_length)
  -- decrypt shared secret
  let w := w.emit (Event.cry_rsa_decrypt r_bytes.1 secret_length)
  let secret_bytes := env.cry_rsa_decrypt r_bytes.1 secret_length env.rsa_keys
  let secret_bytes := utl_reverse_bytes secret_bytes LTG_AES_KEY_LENGTH
  -- start encryption cypher
  let w := w.emit (Event.cfb8_init secret_bytes)
  let r_enc := env.cfb8_init secret_bytes w.client.encryption.encrypt w.client.encryption.decrypt
  let enc_res := r_enc.1
  let w := { w with client := { w.client with encryption :=
    { w.client.encryption with encrypt := r_enc.2.1, decrypt := r_enc.2.2 } } }
  if enc_res ≠ 1 then
    (false, w.emit Event.log_error)
  else
  let w := { w with client := { w.client with encryption :=
    { w.client.encryption with enabled := true } } }
  -- get verify
  let r_vlen := env.pck_read_var_int w.packet
  let verify_length := r_vlen.1
  let w := { w with packet := r_vlen.2 }
  if verify_length > 128 then
    let w := w.emit Event.log_error
    let w := { w with packet := { w.packet with cursor := w.packet.length } }
    let w := w.emit Event.pck_log
    (false, w)
  else
  let r_vbytes := env.pck_read_bytes w.packet verify_length
  let w := { w with packet := r_vbytes.2 }
  let w := w.emit (Event.pck_read_bytes verify_length)
  -- decrypt and check verify
  let w := w.emit (Event.cry_rsa_decrypt r_vbytes.1 verify_length)
  let verify_bytes := env.cry_rsa_decrypt r_vbytes.1 verify_length env.rsa_keys
  let verify_key := env.load_uint32 verify_bytes
  if verify_key ≠ w.client.id then
    (false, w)
  else
  -- auth with Mojang's servers
  if w.curl = false ∧ env.curl_easy_init = false then
    (false, w.emit Event.log_error)
  else
  let w := { w with curl := true }
  -- create server_id hash
  let server_id_hash := env.sha1 (UTL_CSTR "" ++ secret_bytes.take LTG_AES_KEY_LENGTH
    ++ (cry_get_asn1_bytes env.rsa_keys).take (cry_get_asn1_length env.rsa_keys))
  let digest_length := 20
  -- create server_id string
  let server_id := env.utl_to_minecraft_hex server_id_hash digest_length
  let request := sprintf_request w.client.username.value server_id
  let w := w.emit (Event.curl_easy_perform request)
  let r_curl := env.curl_easy_perform request
  let res := r_curl.1
  if res ≠ CURLE_OK then
    (false, w.emit Event.log_error)
  else
  let http_code := r_curl.2.1
  if http_code ≠ 200 then
    (false, w.emit Event.log_info)
  else
  let auth_obj := env.mjson_read r_curl.2.2
  let auth_obj_size := mjson_get_size auth_obj
  match for_loop (phd_auth_body env auth_obj) auth_obj_size 0 w with
  | Flow.ret_false w => (false, w)
  | Flow.next w => (true, phd_update_login_success env w)

/-- Source: `phd_handle_login_plugin_response` (login.c:331); the cast
`(uint32_t)` reduces the varint modulo `2^32`. -/
def phd_handle_login_plugin_response (env : Env) (w : World) : Bool × World :=
  let r_id := env.pck_read_var_int w.packet
  let w := { w with packet := r_id.2 }
  if (r_id.1 % 2 ^ 32).toNat ≠ w.client.id then
    (false, w)
  else
    let r_ok := env.pck_read_int8 w.packet
    let w := { w with packet := r_ok.2 }
    (true, w)

/-- Source: `phd_login` (login.c:35). -/
def phd_login (env : Env) (w : World) : Bool × World :=
  let r_id := env.pck_read_var_int w.packet
  let id := r_id.1
  let w := { w with packet := r_id.2 }
  if id = 0x00 then
    phd_handle_login_start env w
  else if id = 0x01 then
    phd_handle_encryption_response env w
  else if id = 0x02 then
    phd_handle_login_plugin_response env w
  else
    (false, w.emit Event.log_warn)

/-- The packets handed to `ltg_send`, oldest first. -/
def sent_packets : List Event → List pck_out_t
  | [] => []
  | Event.ltg_send _ packet :: es => packet :: sent_packets es
  | _ :: es => sent_packets es

/-! ## A reference environment

Concrete collaborators, used to run the handlers on concrete packets.  The
packet codec follows the wire format of the specification.  RSA is replaced by
a cipher whose ciphertext is the plaintext, decrypted least significant byte
first (the order `login.c` expects, as its reversal of the secret shows),
SHA-1 by a fixed digest and the session server by a canned answer. -/

/-- Modelled from the spec: varints of the absent packet codec are 7-bit
groups, least significant first, the top bit of a byte meaning that more
follow; at most five bytes.  Returns the value and the bytes consumed. -/
def var_int_decode : Nat → List Nat → Nat → Nat → Nat × Nat
  | 0, _, _, acc => (acc, 0)
  | _ + 1, [], _, acc => (acc, 0)
  | fuel + 1, b :: bs, shift, acc =>
    if 128 ≤ b then
      let r := var_int_decode fuel bs (shift + 7) (acc + (b % 128) * 2 ^ shift)
      (r.1, r.2 + 1)
    else
      (acc + (b % 128) * 2 ^ shift, 1)

/-- The value of 32 bits read as a two's-complement `int32_t`. -/
def to_int32 (n : Nat) : Int :=
  if n % 2 ^ 32 < 2 ^ 31 then (n % 2 ^ 32 : Nat) else ((n % 2 ^ 32 : Nat) : Int) - 2 ^ 32

/-- Modelled from the spec: `pck_read_var_int` of the absent packet codec. -/
def ref_read_var_int (p : pck_packet_t) : Int × pck_packet_t :=
  let r := var_int_decode 5 (p.bytes.drop p.cursor) 0 0
  (to_int32 r.1, { p with cursor := p.cursor + r.2 })

/-- Modelled from the spec: `pck_read_bytes` of the absent packet codec, a raw
byte run; a negative count reads nothing here. -/
def ref_read_bytes (p : pck_packet_t) (length : Int) : List Nat × pck_packet_t :=
  ((p.bytes.drop p.cursor).take length.toNat, { p with cursor := p.cursor + length.toNat })

/-- Modelled from the spec: `pck_read_int8` of the absent packet codec. -/
def ref_read_int8 (p : pck_packet_t) : Int × pck_packet_t :=
  (((p.bytes.drop p.cursor).headD 0 : Nat), { p with cursor := p.cursor + 1 })

/-- The value of one ASCII hexadecimal digit. -/
def hex_value (c : Nat) : Nat :=
  if 48 ≤ c ∧ c ≤ 57 then c - 48
  else if 97 ≤ c ∧ c ≤ 102 then c - 87
  else if 65 ≤ c ∧ c ≤ 70 then c - 55
  else 0

/-- Modelled from the spec: `utl_read_hex_bytes` of the absent `util/util.h`
turns `2 * n` hexadecimal characters into `n` bytes. -/
def ref_read_hex_bytes : List Nat → Nat → List Nat
  | hi :: lo :: rest, n + 1 => (16 * hex_value hi + hex_value lo) :: ref_read_hex_bytes rest n
  | _, _ => []

/-- The big-endian value of a byte string. -/
def be_value (b : List Nat) : Nat := b.foldl (fun acc x => acc * 256 + x) 0

/-- The little-endian value of the first four bytes of a buffer. -/
def le_uint32 (b : List Nat) : Nat :=
  b.getD 0 0 + 256 * b.getD 1 0 + 65536 * b.getD 2 0 + 16777216 * b.getD 3 0

/-- Modelled from the spec: `utl_to_minecraft_hex` of the absent `util/util.h`:
the digest read as a two's-complement big-endian integer, a leading `-` and
the negated value when its top bit is set, lowercase hexadecimal without
leading zeros. -/
def ref_to_minecraft_hex (hash : List Nat) (length : Nat) : List Nat :=
  let n := be_value (hash.take length)
  if 2 ^ (8 * length - 1) ≤ n then
    45 :: (Nat.toDigits 16 (2 ^ (8 * length) - n)).map Char.toNat
  else
    (Nat.toDigits 16 n).map Char.toNat

/-- A 162-byte DER `SubjectPublicKeyInfo` for a 1024-bit modulus and exponent
65537: the headers, 128 modulus bytes, and the exponent. -/
def ref_der : List Nat :=
  [0x30, 0x81, 0x9f, 0x30, 0x0d, 0x06, 0x09, 0x2a, 0x86, 0x48, 0x86, 0xf7, 0x0d, 0x01, 0x01,
   0x01, 0x05, 0x00, 0x03, 0x81, 0x8d, 0x00, 0x30, 0x81, 0x89, 0x02, 0x81, 0x81, 0x00]
  ++ (List.range 128).map (fun i => (7 * i + 193) % 256)
  ++ [0x02, 0x03, 0x01, 0x00, 0x01]

/-- A keypair whose cached DER is `ref_der`; the rest of the 256-byte array is
zero. -/
def ref_keys : cry_rsa_keypair_t :=
  { d := 0, n := 0,
    ASN1 := { length := 162, bytes := ref_der ++ List.replicate 94 0,
              bytes_size := by
                rw [List.length_append, List.length_replicate, ref_der, List.length_append,
                  List.length_append, List.length_map, List.length_range]
                rfl } }

/-- The JSON-chat rendering used by the reference environment. -/
def ref_write_translation (t : cht_translation_t) : List Nat :=
  UTL_CSTR ("\x7b\"translate\":\"" ++ t.translate ++ "\",\"with\":["
    ++ String.intercalate "," (t.with_list.map (fun c => "\"" ++ c.text ++ "\"")) ++ "]\x7d")

/-- The SHA-1 digest of the empty string, the fixed digest of the reference
environment. -/
def ref_digest : List Nat :=
  [0xda, 0x39, 0xa3, 0xee, 0x5e, 0x6b, 0x4b, 0x0d, 0x32, 0x55,
   0xbf, 0xef, 0x95, 0x60, 0x18, 0x90, 0xaf, 0xd8, 0x07, 0x09]

/-- The reference environment: server protocol 47, the given online mode and
compression threshold, and a session server that answers with the given
status and (already parsed) JSON document. -/
def ref_env (online_mode : Bool) (threshold : Int) (status : Int) (doc : mjson_val) : Env :=
  { pck_read_var_int := ref_read_var_int
    pck_read_bytes := ref_read_bytes
    pck_read_int8 := ref_read_int8
    sky_get_protocol := 47
    sky_is_online_mode := online_mode
    sky_get_network_compression_threshold := threshold
    rsa_keys := ref_keys
    MC_VER := "1.8.9"
    cht_write_translation := ref_write_translation
    cry_rsa_decrypt := fun src length _ => (src.take length.toNat).reverse
    cfb8_init := fun key _ _ => (1, key.take 16, key.take 16)
    load_uint32 := le_uint32
    sha1 := fun _ => ref_digest
    utl_to_minecraft_hex := ref_to_minecraft_hex
    curl_easy_init := true
    curl_easy_perform := fun _ => (0, status, [])
    mjson_read := fun _ => doc
    utl_read_hex_bytes := ref_read_hex_bytes }

/-- A client that has just entered the login phase with the given protocol
version and verify token. -/
def ref_client (protocol : Int) (id : Nat) : ltg_client_t :=
  { id := id, protocol := protocol, state := ltg_state.ltg_login,
    username := { length := 0, value := [] }, uuid := List.replicate 16 0,
    compression_enabled := false,
    encryption := { enabled := false, encrypt := [], decrypt := [] },
    textures := { value := { length := 0, value := [] },
                  signature := { length := 0, value := [] } } }

/-- The world in which the given client receives the given packet bytes and
nothing has happened yet. -/
def ref_world (c : ltg_client_t) (bytes : List Nat) : World :=
  { client := c, packet := { bytes := bytes, cursor := 0 }, curl := false, events := [] }

/-! ## Names for the locals of the handlers -/

/-- The username `phd_handle_login_start` reads from the packet: the length
varint and the bytes that follow it. -/
def login_start_username (env : Env) (w : World) : string_t :=
  { length := (env.pck_read_var_int w.packet).1,
    value := (env.pck_read_bytes (env.pck_read_var_int w.packet).2
      (env.pck_read_var_int w.packet).1).1 }

/-- The local `secret.length` (login.c:112). -/
def er_secret_length (env : Env) (w : World) : Int :=
  (env.pck_read_var_int w.packet).1

/-- The result of `pck_read_bytes(packet, secret.bytes, secret.length)`
(login.c:120). -/
def er_secret_raw (env : Env) (w : World) : List Nat × pck_packet_t :=
  env.pck_read_bytes (env.pck_read_var_int w.packet).2 (er_secret_length env w)

/-- The buffer `secret.bytes` after decryption and reversal (login.c:123-124). -/
def er_secret (env : Env) (w : World) : List Nat :=
  utl_reverse_bytes (env.cry_rsa_decrypt (er_secret_raw env w).1 (er_secret_length env w)
    env.rsa_keys) LTG_AES_KEY_LENGTH

/-- The result of `cfb8_init` (login.c:127). -/
def er_cipher (env : Env) (w : World) : Int × List Nat × List Nat :=
  env.cfb8_init (er_secret env w) w.client.encryption.encrypt w.client.encryption.decrypt

/-- The local `enc_res` (login.c:127). -/
def er_enc_res (env : Env) (w : World) : Int := (er_cipher env w).1

/-- The local `verify.length` (login.c:143). -/
def er_verify_length (env : Env) (w : World) : Int :=
  (env.pck_read_var_int (er_secret_raw env w).2).1

/-- The result of `pck_read_bytes(packet, verify.bytes, verify.length)`
(login.c:151). -/
def er_verify_raw (env : Env) (w : World) : List Nat × pck_packet_t :=
  env.pck_read_bytes (env.pck_read_var_int (er_secret_raw env w).2).2 (er_verify_length env w)

/-- The member `verify.key` after decryption (login.c:154-155). -/
def er_verify_key (env : Env) (w : World) : Nat :=
  env.load_uint32 (env.cry_rsa_decrypt (er_verify_raw env w).1 (er_verify_length env w)
    env.rsa_keys)

/-- The local `request`, the URL given to cURL (login.c:197). -/
def er_request (env : Env) (w : World) : List Nat :=
  sprintf_request w.client.username.value
    (env.utl_to_minecraft_hex
      (env.sha1 (UTL_CSTR "" ++ (er_secret env w).take LTG_AES_KEY_LENGTH
        ++ (cry_get_asn1_bytes env.rsa_keys).take (cry_get_asn1_length env.rsa_keys))) 20)

/-- The outcome of `curl_easy_perform` (login.c:207): `res`, `http_code` and
the response body. -/
def er_curl (env : Env) (w : World) : Int × Int × List Nat :=
  env.curl_easy_perform (er_request env w)

/-- The world after the cipher streams were initialised (login.c:127). -/
def er_after_secret (env : Env) (w : World) : World :=
  { client := { w.client with encryption :=
      { w.client.encryption with encrypt := (er_cipher env w).2.1,
                                 decrypt := (er_cipher env w).2.2 } }
    packet := (er_secret_raw env w).2
    curl := w.curl
    events := w.events ++
      [Event.pck_read_bytes (er_secret_length env w),
       Event.cry_rsa_decrypt (er_secret_raw env w).1 (er_secret_length env w),
       Event.cfb8_init (er_secret env w)] }

/-- The world after the verify token was decrypted (login.c:154). -/
def er_after_verify (env : Env) (w : World) : World :=
  { client := { w.client with encryption :=
      { enabled := true, encrypt := (er_cipher env w).2.1, decrypt := (er_cipher env w).2.2 } }
    packet := (er_verify_raw env w).2
    curl := w.curl
    events := (er_after_secret env w).events ++
      [Event.pck_read_bytes (er_verify_length env w),
       Event.cry_rsa_decrypt (er_verify_raw env w).1 (er_verify_length env w)] }

/-- The world after `curl_easy_perform` was called (login.c:207). -/
def er_after_request (env : Env) (w : World) : World :=
  { er_after_verify env w with
    curl := true
    events := (er_after_verify env w).events ++ [Event.curl_easy_perform (er_request env w)] }

/-- The state a loop body ends in. -/
def Flow.state {σ : Type} : Flow σ → σ
  | Flow.next s => s
  | Flow.ret_false s => s

/-- The URLs handed to `curl_easy_perform`, oldest first. -/
def http_requests : List Event → List (List Nat)
  | [] => []
  | Event.curl_easy_perform url :: es => url :: http_requests es
  | _ :: es => http_requests es

/-- The part of the world that parsing the answer leaves alone: everything but
the client's uuid, username and textures, and the only effects added are
`log_error` lines. -/
structure AuthFrame (w0 w : World) : Prop where
  id : w.client.id = w0.client.id
  protocol : w.client.protocol = w0.client.protocol
  state : w.client.state = w0.client.state
  compression_enabled : w.client.compression_enabled = w0.client.compression_enabled
  encryption : w.client.encryption = w0.client.encryption
  packet : w.packet = w0.packet
  curl : w.curl = w0.curl
  events : ∃ n, w.events = w0.events ++ List.replicate n Event.log_error

/-- The conditions under which `phd_handle_encryption_response` reaches the
parsing of the session server's answer: both length fields passed their check,
`cfb8_init` returned 1, the decrypted verify token equals the client's token,
a cURL handle exists, the transfer ended with `CURLE_OK`, and the status is
200. -/
def er_accepted (env : Env) (w : World) : Prop :=
  ¬ er_secret_length env w > 128
  ∧ er_enc_res env w = 1
  ∧ ¬ er_verify_length env w > 128
  ∧ er_verify_key env w = w.client.id
  ∧ ¬ (w.curl = false ∧ env.curl_easy_init = false)
  ∧ (er_curl env w).1 = CURLE_OK
  ∧ (er_curl env w).2.1 = 200

instance (env : Env) (w : World) : Decidable (er_accepted env w) := by
  unfold er_accepted
  infer_instance

/-- The SetCompression packet built by `phd_send_set_compression`. -/
def set_compression_packet (env : Env) : pck_out_t :=
  { capacity := 15, endian := io_endianness.io_big_endian,
    writes := [pck_write.var_int 0x03,
               pck_write.var_int env.sky_get_network_compression_threshold] }

/-- The LoginSuccess packet built by `phd_send_login_success` for a client. -/
def login_success_packet (c : ltg_client_t) : pck_out_t :=
  { capacity := 32, endian := io_endianness.io_big_endian,
    writes := [pck_write.var_int 0x02, pck_write.bytes c.uuid 16,
               pck_write.string c.username.value c.username.length] }

/-- The EncryptionRequest packet built by `phd_send_encryption_request`. -/
def encryption_request_packet (env : Env) (c : ltg_client_t) : pck_out_t :=
  { capacity := 256, endian := io_endianness.io_big_endian,
    writes := [pck_write.var_int 0x01, pck_write.string [] 0,
      pck_write.var_int (cry_get_asn1_length env.rsa_keys),
      pck_write.bytes (cry_get_asn1_bytes env.rsa_keys) (cry_get_asn1_length env.rsa_keys),
      pck_write.var_int 4, pck_write.int32 c.id] }

/-- One entry of the `properties` array as the handler meets it: three members
with any labels, each holding a string. -/
structure auth_entry_t where
  label_0 : List Nat
  label_1 : List Nat
  label_2 : List Nat
  first : List Nat
  second : List Nat
  third : List Nat

/-- The JSON object of an entry, members in document order. -/
def auth_entry_t.json (e : auth_entry_t) : mjson_val :=
  mjson_val.object
    [(e.label_0, mjson_val.string e.first),
     (e.label_1, mjson_val.string e.second),
     (e.label_2, mjson_val.string e.third)]

/-- An answer of the session server with three top-level members under any
labels: two strings and an array of entries. -/
def auth_answer (l0 l1 l2 first second : List Nat) (entries : List auth_entry_t) : mjson_val :=
  mjson_val.object
    [(l0, mjson_val.string first),
     (l1, mjson_val.string second),
     (l2, mjson_val.array (entries.map auth_entry_t.json))]

/-- A textures entry with the labels the session server uses: `name`, `value`,
`signature`. -/
def textures_entry (value signature : List Nat) : auth_entry_t :=
  { label_0 := UTL_CSTR "name", label_1 := UTL_CSTR "value", label_2 := UTL_CSTR "signature",
    first := UTL_CSTR "textures", second := value, third := signature }

/-- Recording one entry's second and third member as the textures value and
signature of the client (login.c:285-308). -/
def record_textures (w : World) (e : auth_entry_t) : World :=
  { w with client := { w.client with
      textures := { value := { length := e.second.length, value := e.second },
                    signature := { length := e.third.length, value := e.third } } } }

/-- The textures of the client after the given entries were recorded: those of
the last entry, or the previous ones when there is no entry. -/
def textures_after (t : ltg_textures_t) (entries : List auth_entry_t) : ltg_textures_t :=
  match entries.getLast? with
  | none => t
  | some e => { value := { length := e.second.length, value := e.second },
                signature := { length := e.third.length, value := e.third } }

/-- The `name` member of the sample textures entry. -/
def ref_member_name : List Nat × mjson_val :=
  (UTL_CSTR "name", mjson_val.string (UTL_CSTR "textures"))

/-- The `value` member of the sample textures entry. -/
def ref_member_value : List Nat × mjson_val :=
  (UTL_CSTR "value", mjson_val.string (UTL_CSTR "ey"))

/-- The `signature` member of the sample textures entry. -/
def ref_member_signature : List Nat × mjson_val :=
  (UTL_CSTR "signature", mjson_val.string (UTL_CSTR "Abc"))

/-- The `id` member of the sample answer. -/
def ref_member_id : List Nat × mjson_val :=
  (UTL_CSTR "id", mjson_val.string (UTL_CSTR "069a79f444e94726a5befca90e38aaf5"))

/-- The `name` member of the sample answer. -/
def ref_member_username : List Nat × mjson_val :=
  (UTL_CSTR "name", mjson_val.string (UTL_CSTR "Notch"))

/-- The `properties` member of the sample answer, with the members of its one
entry in the given order. -/
def ref_member_properties (entry : List (List Nat × mjson_val)) : List Nat × mjson_val :=
  (UTL_CSTR "properties", mjson_val.array [mjson_val.object entry])

/-- A well-formed EncryptionResponse for the client with token 0xCAFEBABE. -/
def ref_response_world : World :=
  ref_world (ref_client 47 0xCAFEBABE) (16 :: List.range 16 ++ [4, 0xCA, 0xFE, 0xBA, 0xBE])

/-- Recording the first and the second top-level member on the client as uuid
and username (login.c:239-253). -/
def record_identity (env : Env) (w : World) (id name : List Nat) : World :=
  { w with client := { w.client with
      uuid := env.utl_read_hex_bytes id 16
      username :=
        if w.client.username.length ≠ (name.length : Int)
            ∨ w.client.username.value.take w.client.username.length.toNat
              ≠ name.take w.client.username.length.toNat then
          { length := name.length, value := name }
        else
          w.client.username } }

/-! ## LoginStart (claims C1, C2, C3) -/

/-- C1: when the client's protocol version differs from the server's,
`phd_handle_login_start` returns false; besides reading the username its only
effect is one `ltg_send` of a Disconnect packet (varint 0x00, then the rendered
translation as a string) whose key is `multiplayer.disconnect.outdated_client`
for an older client and `multiplayer.disconnect.outdated_server` for a newer
one, with the server's version string as the single parameter; the connection
state is unchanged.  The online-mode setting plays no part. -/
theorem phd_handle_login_start_version_mismatch (env : Env) (w : World)
    (hv : w.client.protocol ≠ env.sky_get_protocol) :
    let key :=
      if w.client.protocol < env.sky_get_protocol then "multiplayer.disconnect.outdated_client"
      else "multiplayer.disconnect.outdated_server"
    let message := env.cht_write_translation
      { translate := key, with_list := [{ text := env.MC_VER }] }
    let r := phd_handle_login_start env w
    r.1 = false
    ∧ r.2.events = w.events ++
        [Event.pck_read_bytes (login_start_username env w).length,
         Event.ltg_send { w.client with username := login_start_username env w }
           { capacity := 1 + message.length, endian := io_endianness.io_big_endian,
             writes := [pck_write.var_int 0x00, pck_write.string message message.length] }]
    ∧ r.2.client.state = w.client.state := by
  intro key message r
  simp only [r, key, message, login_start_username, phd_handle_login_start, World.emit,
    ltg_client_set_username, phd_send_disconnect_login, ltg_send, PCK_INLINE,
    pck_write_var_int, pck_write_string, cht_translation_new, cht_new, cht_add_with,
    cht_translation_multiplayer_disconnect_outdated_client,
    cht_translation_multiplayer_disconnect_outdated_server]
  simp [hv]
  split <;> simp

/-- C1 at a concrete input: a protocol-46 client sends LoginStart "Alex" to the
protocol-47 reference server, in either online mode. -/
theorem phd_handle_login_start_version_mismatch_witness :
    (ref_client 46 7).protocol ≠ (ref_env true 256 200 mjson_val.null).sky_get_protocol
    ∧ (phd_handle_login_start (ref_env true 256 200 mjson_val.null)
        (ref_world (ref_client 46 7) (4 :: UTL_CSTR "Alex"))).1 = false
    ∧ sent_packets (phd_handle_login_start (ref_env true 256 200 mjson_val.null)
        (ref_world (ref_client 46 7) (4 :: UTL_CSTR "Alex"))).2.events
      = [{ capacity := 72, endian := io_endianness.io_big_endian,
           writes := [pck_write.var_int 0, pck_write.string (UTL_CSTR
             "\x7b\"translate\":\"multiplayer.disconnect.outdated_client\",\"with\":[\"1.8.9\"]\x7d")
             71] }] :=
  ⟨by decide,
   (phd_handle_login_start_version_mismatch (ref_env true 256 200 mjson_val.null)
      (ref_world (ref_client 46 7) (4 :: UTL_CSTR "Alex")) (by decide)).1,
   by decide⟩

/-- C2: when the protocol versions are equal and online mode is on,
`phd_handle_login_start` returns true, leaves the connection state as it was,
and besides reading the username its only effect is one `ltg_send` of the
EncryptionRequest: varint 0x01, the empty string, varint `L`, the first `L`
bytes of the keypair's cached DER, varint 4, and the verify token as a
big-endian `int32`.  Here `L` is the stored `ASN1.length` and the bytes are the
stored `ASN1.bytes` of the server keypair, which is what
`cry_get_asn1_length` and `cry_get_asn1_bytes` return, and the array holds `L`
bytes to send. -/
theorem phd_handle_login_start_online (env : Env) (w : World)
    (hv : w.client.protocol = env.sky_get_protocol)
    (ho : env.sky_is_online_mode = true) :
    let r := phd_handle_login_start env w
    r.1 = true
    ∧ r.2.client.state = w.client.state
    ∧ r.2.events = w.events ++
        [Event.pck_read_bytes (login_start_username env w).length,
         Event.ltg_send { w.client with username := login_start_username env w }
           { capacity := 256, endian := io_endianness.io_big_endian,
             writes := [pck_write.var_int 0x01, pck_write.string [] 0,
               pck_write.var_int env.rsa_keys.ASN1.length.val,
               pck_write.bytes env.rsa_keys.ASN1.bytes env.rsa_keys.ASN1.length.val,
               pck_write.var_int 4, pck_write.int32 w.client.id] }]
    ∧ cry_get_asn1_length env.rsa_keys = env.rsa_keys.ASN1.length.val
    ∧ cry_get_asn1_bytes env.rsa_keys = env.rsa_keys.ASN1.bytes
    ∧ (env.rsa_keys.ASN1.bytes.take env.rsa_keys.ASN1.length.val).length
        = env.rsa_keys.ASN1.length.val := by
  intro r
  refine ⟨?_, ?_, ?_, ?_, ?_, ?_⟩
  · simp [r, phd_handle_login_start, hv, ho, ltg_client_set_username, World.emit]
  · simp [r, phd_handle_login_start, hv, ho, ltg_client_set_username, World.emit,
      phd_send_encryption_request, ltg_send]
  · simp [r, phd_handle_login_start, hv, ho, ltg_client_set_username, World.emit,
      phd_send_encryption_request, ltg_send, PCK_INLINE, pck_write_var_int,
      pck_write_string, pck_write_bytes, pck_write_int32, login_start_username, UTL_CSTR,
      cry_get_asn1_length, cry_get_asn1_bytes]
  · simp [cry_get_asn1_length]
  · simp [cry_get_asn1_bytes]
  · have hlen : env.rsa_keys.ASN1.length.val < 256 := env.rsa_keys.ASN1.length.isLt
    have hsize : env.rsa_keys.ASN1.bytes.length = 256 := env.rsa_keys.ASN1.bytes_size
    rw [List.length_take, hsize]
    omega

/-- C2 at a concrete input: a protocol-47 client with verify token 0xCAFEBABE
sends LoginStart "Alex" to the online-mode reference server, whose keypair
caches the 162-byte `ref_der`.  The one packet sent announces 162 and carries
the key array, of which the first 162 bytes are `ref_der`. -/
theorem phd_handle_login_start_online_witness :
    (ref_client 47 0xCAFEBABE).protocol = (ref_env true 256 200 mjson_val.null).sky_get_protocol
    ∧ (ref_env true 256 200 mjson_val.null).sky_is_online_mode = true
    ∧ (phd_handle_login_start (ref_env true 256 200 mjson_val.null)
        (ref_world (ref_client 47 0xCAFEBABE) (4 :: UTL_CSTR "Alex"))).1 = true
    ∧ (phd_handle_login_start (ref_env true 256 200 mjson_val.null)
        (ref_world (ref_client 47 0xCAFEBABE) (4 :: UTL_CSTR "Alex"))).2.client.state
      = ltg_state.ltg_login
    ∧ (phd_handle_login_start (ref_env true 256 200 mjson_val.null)
        (ref_world (ref_client 47 0xCAFEBABE) (4 :: UTL_CSTR "Alex"))).2.events
      = [Event.pck_read_bytes 4,
         Event.ltg_send
           { ref_client 47 0xCAFEBABE with username := { length := 4, value := UTL_CSTR "Alex" } }
           { capacity := 256, endian := io_endianness.io_big_endian,
             writes := [pck_write.var_int 1, pck_write.string [] 0, pck_write.var_int 162,
               pck_write.bytes (ref_der ++ List.replicate 94 0) 162,
               pck_write.var_int 4, pck_write.int32 0xCAFEBABE] }]
    ∧ (ref_der ++ List.replicate 94 0).take 162 = ref_der
    ∧ ref_der.take 4 = [0x30, 0x81, 0x9f, 0x30] :=
  ⟨by decide, by decide,
   (phd_handle_login_start_online (ref_env true 256 200 mjson_val.null)
      (ref_world (ref_client 47 0xCAFEBABE) (4 :: UTL_CSTR "Alex")) (by decide) (by decide)).1,
   (phd_handle_login_start_online (ref_env true 256 200 mjson_val.null)
      (ref_world (ref_client 47 0xCAFEBABE) (4 :: UTL_CSTR "Alex")) (by decide) (by decide)).2.1,
   (phd_handle_login_start_online (ref_env true 256 200 mjson_val.null)
      (ref_world (ref_client 47 0xCAFEBABE) (4 :: UTL_CSTR "Alex")) (by decide)
      (by decide)).2.2.1,
   by decide, by decide⟩

/-- C3: when the protocol versions are equal and online mode is off, for every
threshold `t`, `phd_handle_login_start` returns true; after reading the
username its effects are, in this order, `ltg_send` of SetCompression
(varint 0x03, varint `t`), `ltg_send` of LoginSuccess (varint 0x02, the 16
UUID bytes, the username as received) and the play-phase join hook, which
sees the state already set to play.  The compression flag seen by the send of
SetCompression is the prior one; afterwards it is true if `t > 0` and
unchanged if `t <= 0`. -/
theorem phd_handle_login_start_offline (env : Env) (w : World)
    (hv : w.client.protocol = env.sky_get_protocol)
    (ho : env.sky_is_online_mode = false) :
    let t := env.sky_get_network_compression_threshold
    let c1 : ltg_client_t := { w.client with username := login_start_username env w }
    let c2 : ltg_client_t :=
      { c1 with compression_enabled := if t > 0 then true else w.client.compression_enabled }
    let c3 : ltg_client_t := { c2 with state := ltg_state.ltg_play }
    let r := phd_handle_login_start env w
    r.1 = true
    ∧ r.2.events = w.events ++
        [Event.pck_read_bytes (login_start_username env w).length,
         Event.ltg_send c1
           { capacity := 15, endian := io_endianness.io_big_endian,
             writes := [pck_write.var_int 0x03, pck_write.var_int t] },
         Event.ltg_send c2
           { capacity := 32, endian := io_endianness.io_big_endian,
             writes := [pck_write.var_int 0x02, pck_write.bytes w.client.uuid 16,
               pck_write.string (login_start_username env w).value
                 (login_start_username env w).length] },
         Event.phd_send_join_game c3]
    ∧ r.2.client = c3
    ∧ r.2.client.state = ltg_state.ltg_play
    ∧ c1.compression_enabled = w.client.compression_enabled
    ∧ (t > 0 → r.2.client.compression_enabled = true)
    ∧ (t ≤ 0 → r.2.client.compression_enabled = w.client.compression_enabled) := by
  intro t c1 c2 c3 r
  have hr : r = phd_handle_login_start env w := rfl
  by_cases ht : env.sky_get_network_compression_threshold > 0
  · have ht' : ¬ env.sky_get_network_compression_threshold ≤ 0 := by omega
    simp [hr, t, c1, c2, c3, phd_handle_login_start, hv, ho, ltg_client_set_username,
      World.emit, phd_update_login_success, phd_send_set_compression, phd_send_login_success,
      ltg_send, ltg_client_set_state, PCK_INLINE, pck_write_var_int, pck_write_string,
      pck_write_bytes, login_start_username, ht, ht']
  · have ht' : env.sky_get_network_compression_threshold ≤ 0 := by omega
    simp [hr, t, c1, c2, c3, phd_handle_login_start, hv, ho, ltg_client_set_username,
      World.emit, phd_update_login_success, phd_send_set_compression, phd_send_login_success,
      ltg_send, ltg_client_set_state, PCK_INLINE, pck_write_var_int, pck_write_string,
      pck_write_bytes, login_start_username, ht, ht']

/-- C3 at a concrete input: LoginStart "Alex" on the offline reference server
with threshold 256. -/
theorem phd_handle_login_start_offline_witness :
    (ref_client 47 7).protocol = (ref_env false 256 200 mjson_val.null).sky_get_protocol
    ∧ (ref_env false 256 200 mjson_val.null).sky_is_online_mode = false
    ∧ (phd_handle_login_start (ref_env false 256 200 mjson_val.null)
        (ref_world (ref_client 47 7) (4 :: UTL_CSTR "Alex"))).1 = true
    ∧ sent_packets (phd_handle_login_start (ref_env false 256 200 mjson_val.null)
        (ref_world (ref_client 47 7) (4 :: UTL_CSTR "Alex"))).2.events
      = [{ capacity := 15, endian := io_endianness.io_big_endian,
           writes := [pck_write.var_int 3, pck_write.var_int 256] },
         { capacity := 32, endian := io_endianness.io_big_endian,
           writes := [pck_write.var_int 2, pck_write.bytes (List.replicate 16 0) 16,
             pck_write.string (UTL_CSTR "Alex") 4] }] :=
  ⟨by decide, by decide,
   (phd_handle_login_start_offline (ref_env false 256 200 mjson_val.null)
      (ref_world (ref_client 47 7) (4 :: UTL_CSTR "Alex")) (by decide) (by decide)).1,
   by decide⟩

/-- The handler as a cascade of its exits, in terms of its locals. -/
theorem phd_handle_encryption_response_eq (env : Env) (w : World) :
    phd_handle_encryption_response env w =
      if er_secret_length env w > 128 then
        (false, { w with
          packet := { bytes := (env.pck_read_var_int w.packet).2.bytes,
                      cursor := (env.pck_read_var_int w.packet).2.length }
          events := w.events ++ [Event.log_error, Event.pck_log] })
      else if er_enc_res env w ≠ 1 then
        (false, (er_after_secret env w).emit Event.log_error)
      else if er_verify_length env w > 128 then
        (false, { client := { w.client with encryption :=
                    { enabled := true, encrypt := (er_cipher env w).2.1,
                      decrypt := (er_cipher env w).2.2 } }
                  packet :=
                    { bytes := (env.pck_read_var_int (er_secret_raw env w).2).2.bytes,
                      cursor := (env.pck_read_var_int (er_secret_raw env w).2).2.length }
                  curl := w.curl
                  events := (er_after_secret env w).events ++ [Event.log_error, Event.pck_log] })
      else if er_verify_key env w ≠ w.client.id then
        (false, er_after_verify env w)
      else if w.curl = false ∧ env.curl_easy_init = false then
        (false, (er_after_verify env w).emit Event.log_error)
      else if (er_curl env w).1 ≠ CURLE_OK then
        (false, (er_after_request env w).emit Event.log_error)
      else if (er_curl env w).2.1 ≠ 200 then
        (false, (er_after_request env w).emit Event.log_info)
      else
        match for_loop (phd_auth_body env (env.mjson_read (er_curl env w).2.2))
            (mjson_get_size (env.mjson_read (er_curl env w).2.2)) 0 (er_after_request env w) with
        | Flow.ret_false w' => (false, w')
        | Flow.next w' => (true, phd_update_login_success env w') := by
  simp only [phd_handle_encryption_response, er_secret_length, er_enc_res, er_verify_length,
    er_verify_key, er_curl, er_after_secret, er_after_verify, er_after_request, er_request,
    er_cipher, er_secret, er_secret_raw, er_verify_raw, World.emit, List.append_assoc,
    List.cons_append, List.nil_append, List.singleton_append]

/-! ## What parsing the session server's answer can change -/

theorem sent_packets_append (a b : List Event) :
    sent_packets (a ++ b) = sent_packets a ++ sent_packets b := by
  induction a with
  | nil => rfl
  | cons e es ih => cases e <;> simp [sent_packets, ih]

theorem http_requests_append (a b : List Event) :
    http_requests (a ++ b) = http_requests a ++ http_requests b := by
  induction a with
  | nil => rfl
  | cons e es ih => cases e <;> simp [http_requests, ih]

theorem sent_packets_log_error (n : Nat) :
    sent_packets (List.replicate n Event.log_error) = [] := by
  induction n with
  | zero => rfl
  | succ n ih => simp [List.replicate_succ, sent_packets, ih]

theorem http_requests_log_error (n : Nat) :
    http_requests (List.replicate n Event.log_error) = [] := by
  induction n with
  | zero => rfl
  | succ n ih => simp [List.replicate_succ, http_requests, ih]

/-- A relation that every loop body maintains is maintained by the loop. -/
theorem for_loop_rel {σ : Type} (R : σ → σ → Prop) (hrefl : ∀ s, R s s)
    (htrans : ∀ a b c, R a b → R b c → R a c) (body : Nat → σ → Flow σ)
    (hbody : ∀ i s, R s (body i s).state) :
    ∀ n i s, R s (for_loop body n i s).state := by
  intro n
  induction n with
  | zero => intro i s; exact hrefl s
  | succ n ih =>
    intro i s
    have h := hbody i s
    unfold for_loop
    cases hb : body i s with
    | next s' =>
      rw [hb] at h
      exact htrans _ _ _ h (ih (i + 1) s')
    | ret_false s' =>
      rw [hb] at h
      exact h

theorem AuthFrame.refl (w : World) : AuthFrame w w :=
  ⟨rfl, rfl, rfl, rfl, rfl, rfl, rfl, ⟨0, by simp⟩⟩

theorem AuthFrame.trans (a b c : World) (h1 : AuthFrame a b) (h2 : AuthFrame b c) :
    AuthFrame a c := by
  obtain ⟨n1, e1⟩ := h1.events
  obtain ⟨n2, e2⟩ := h2.events
  refine ⟨h2.id.trans h1.id, h2.protocol.trans h1.protocol, h2.state.trans h1.state,
    h2.compression_enabled.trans h1.compression_enabled, h2.encryption.trans h1.encryption,
    h2.packet.trans h1.packet, h2.curl.trans h1.curl, ⟨n1 + n2, ?_⟩⟩
  rw [e2, e1, List.append_assoc, List.append_replicate_replicate]

theorem AuthFrame.emit_log_error (w : World) : AuthFrame w (w.emit Event.log_error) :=
  ⟨rfl, rfl, rfl, rfl, rfl, rfl, rfl, ⟨1, rfl⟩⟩

theorem phd_auth_property_body_frame (property : mjson_val) (k : Nat)
    (s : World × property_type_t) :
    AuthFrame s.1 (phd_auth_property_body property k s).state.1 := by
  obtain ⟨w, t⟩ := s
  rcases k with _ | _ | _ | k
  · simp only [phd_auth_property_body]
    split
    · exact AuthFrame.refl w
    · exact AuthFrame.refl w
  · cases t
    · exact AuthFrame.emit_log_error w
    · exact ⟨rfl, rfl, rfl, rfl, rfl, rfl, rfl, ⟨0, by simp [phd_auth_property_body, Flow.state]⟩⟩
  · cases t
    · exact AuthFrame.emit_log_error w
    · exact ⟨rfl, rfl, rfl, rfl, rfl, rfl, rfl, ⟨0, by simp [phd_auth_property_body, Flow.state]⟩⟩
  · exact AuthFrame.refl w

theorem phd_auth_properties_body_frame (properties : mjson_val) (j : Nat) (w : World) :
    AuthFrame w (phd_auth_properties_body properties j w).state := by
  have h := for_loop_rel (fun a b : World × property_type_t => AuthFrame a.1 b.1)
    (fun s => AuthFrame.refl s.1) (fun a b c => AuthFrame.trans a.1 b.1 c.1)
    (phd_auth_property_body (mjson_arr_get properties j))
    (phd_auth_property_body_frame (mjson_arr_get properties j))
    (mjson_get_size (mjson_arr_get properties j)) 0 (w, property_type_t.none)
  simp only [phd_auth_properties_body]
  cases hb : for_loop (phd_auth_property_body (mjson_arr_get properties j))
      (mjson_get_size (mjson_arr_get properties j)) 0 (w, property_type_t.none) with
  | next s => rw [hb] at h; exact h
  | ret_false s => rw [hb] at h; exact h

theorem phd_auth_body_frame (env : Env) (auth_obj : mjson_val) (i : Nat) (w : World) :
    AuthFrame w (phd_auth_body env auth_obj i w).state := by
  rcases i with _ | _ | _ | i
  · exact ⟨rfl, rfl, rfl, rfl, rfl, rfl, rfl, ⟨0, by simp [phd_auth_body, Flow.state]⟩⟩
  · simp only [phd_auth_body]
    split
    · exact ⟨rfl, rfl, rfl, rfl, rfl, rfl, rfl, ⟨0, by simp [Flow.state]⟩⟩
    · exact AuthFrame.refl w
  · exact for_loop_rel AuthFrame AuthFrame.refl AuthFrame.trans _
      (phd_auth_properties_body_frame _) _ 0 w
  · exact AuthFrame.refl w

/-- Parsing the answer keeps the frame, whether it ends normally or with
`return false`. -/
theorem phd_auth_loop_frame (env : Env) (auth_obj : mjson_val) (n i : Nat) (w : World) :
    AuthFrame w (for_loop (phd_auth_body env auth_obj) n i w).state :=
  for_loop_rel AuthFrame AuthFrame.refl AuthFrame.trans _ (phd_auth_body_frame env auth_obj) n i w

theorem AuthFrame.sent_packets_eq {w0 w : World} (h : AuthFrame w0 w) :
    sent_packets w.events = sent_packets w0.events := by
  obtain ⟨n, e⟩ := h.events
  rw [e, sent_packets_append, sent_packets_log_error, List.append_nil]

theorem AuthFrame.http_requests_eq {w0 w : World} (h : AuthFrame w0 w) :
    http_requests w.events = http_requests w0.events := by
  obtain ⟨n, e⟩ := h.events
  rw [e, http_requests_append, http_requests_log_error, List.append_nil]

/-! ## EncryptionResponse (claims C4, C6, C7) -/

theorem phd_update_login_success_events (env : Env) (w : World) :
    ∃ c1 c2 c3, (phd_update_login_success env w).events = w.events ++
      [Event.ltg_send c1 (set_compression_packet env),
       Event.ltg_send c2 (login_success_packet w.client),
       Event.phd_send_join_game c3] := by
  by_cases ht : env.sky_get_network_compression_threshold > 0
  · exact ⟨_, _, _, by
      simp [phd_update_login_success, phd_send_set_compression, phd_send_login_success,
        ltg_send, World.emit, ltg_client_set_state, PCK_INLINE, pck_write_var_int,
        pck_write_string, pck_write_bytes, set_compression_packet, login_success_packet, ht]
      exact ⟨rfl, rfl, rfl⟩⟩
  · exact ⟨_, _, _, by
      simp [phd_update_login_success, phd_send_set_compression, phd_send_login_success,
        ltg_send, World.emit, ltg_client_set_state, PCK_INLINE, pck_write_var_int,
        pck_write_string, pck_write_bytes, set_compression_packet, login_success_packet, ht]
      exact ⟨rfl, rfl, rfl⟩⟩

theorem phd_update_login_success_client (env : Env) (w : World) :
    (phd_update_login_success env w).client
      = { w.client with
          state := ltg_state.ltg_play
          compression_enabled :=
            if env.sky_get_network_compression_threshold > 0 then true
            else w.client.compression_enabled } := by
  by_cases ht : env.sky_get_network_compression_threshold > 0 <;>
    simp [phd_update_login_success, phd_send_set_compression, phd_send_login_success,
      ltg_send, World.emit, ltg_client_set_state, ht]

theorem phd_update_login_success_sent (env : Env) (w : World) :
    sent_packets (phd_update_login_success env w).events
      = sent_packets w.events ++ [set_compression_packet env, login_success_packet w.client] := by
  obtain ⟨c1, c2, c3, h⟩ := phd_update_login_success_events env w
  rw [h, sent_packets_append]
  rfl

theorem phd_update_login_success_requests (env : Env) (w : World) :
    http_requests (phd_update_login_success env w).events = http_requests w.events := by
  obtain ⟨c1, c2, c3, h⟩ := phd_update_login_success_events env w
  rw [h, http_requests_append]
  simp [http_requests]

/-- Every exit of the handler that returns false leaves the sent packets and the
connection state as they were; the exit that returns true is the handoff. -/
theorem phd_handle_encryption_response_cases (env : Env) (w : World) :
    (er_accepted env w
      ∧ ∃ w', AuthFrame (er_after_request env w) w'
          ∧ (phd_handle_encryption_response env w = (true, phd_update_login_success env w')
            ∨ phd_handle_encryption_response env w = (false, w')))
    ∨ (¬ er_accepted env w
      ∧ (phd_handle_encryption_response env w).1 = false
      ∧ (phd_handle_encryption_response env w).2.client.state = w.client.state
      ∧ sent_packets (phd_handle_encryption_response env w).2.events = sent_packets w.events) := by
  rw [phd_handle_encryption_response_eq]
  by_cases h1 : er_secret_length env w > 128
  · right
    simp [er_accepted, h1, sent_packets_append, sent_packets]
  by_cases h2 : er_enc_res env w = 1
  swap
  · right
    simp [er_accepted, h1, h2, er_after_secret, World.emit, sent_packets_append, sent_packets]
  by_cases h3 : er_verify_length env w > 128
  · right
    simp [er_accepted, h1, h2, h3, er_after_secret, sent_packets_append, sent_packets]
  by_cases h4 : er_verify_key env w = w.client.id
  swap
  · right
    simp [er_accepted, h1, h2, h3, h4, er_after_secret, er_after_verify, sent_packets_append,
      sent_packets]
  by_cases h5 : w.curl = false ∧ env.curl_easy_init = false
  · right
    simp [er_accepted, h1, h2, h3, h4, h5, er_after_secret, er_after_verify, World.emit,
      sent_packets_append, sent_packets]
  by_cases h6 : (er_curl env w).1 = CURLE_OK
  swap
  · right
    simp [er_accepted, h1, h2, h3, h4, h5, h6, er_after_secret, er_after_verify,
      er_after_request, World.emit, sent_packets_append, sent_packets]
  by_cases h7 : (er_curl env w).2.1 = 200
  swap
  · right
    simp [er_accepted, h1, h2, h3, h4, h5, h6, h7, er_after_secret, er_after_verify,
      er_after_request, World.emit, sent_packets_append, sent_packets]
  left
  refine ⟨⟨h1, h2, h3, h4, h5, h6, h7⟩, ?_⟩
  have hf := phd_auth_loop_frame env (env.mjson_read (er_curl env w).2.2)
    (mjson_get_size (env.mjson_read (er_curl env w).2.2)) 0 (er_after_request env w)
  simp only [h1, h2, h3, h4, h5, h6, h7, if_false, if_true, ne_eq, not_true_eq_false,
    not_false_eq_true]
  cases hl : for_loop (phd_auth_body env (env.mjson_read (er_curl env w).2.2))
      (mjson_get_size (env.mjson_read (er_curl env w).2.2)) 0 (er_after_request env w) with
  | next w' =>
    rw [hl] at hf
    exact ⟨w', hf, Or.inl rfl⟩
  | ret_false w' =>
    rw [hl] at hf
    exact ⟨w', hf, Or.inr rfl⟩

theorem phd_handle_encryption_response_false_of_not_accepted (env : Env) (w : World)
    (hna : ¬ er_accepted env w) : (phd_handle_encryption_response env w).1 = false := by
  rcases phd_handle_encryption_response_cases env w with ⟨hacc, _⟩ | ⟨_, hfalse, _, _⟩
  · exact absurd hacc hna
  · exact hfalse

theorem phd_handle_encryption_response_accepted_of_true (env : Env) (w : World)
    (ht : (phd_handle_encryption_response env w).1 = true) : er_accepted env w := by
  by_contra hna
  rw [phd_handle_encryption_response_false_of_not_accepted env w hna] at ht
  exact Bool.false_ne_true ht

theorem er_after_request_sent (env : Env) (w : World) :
    sent_packets (er_after_request env w).events = sent_packets w.events := by
  simp [er_after_request, er_after_verify, er_after_secret, sent_packets_append, sent_packets]

/-- C6: `phd_handle_encryption_response` returns true only if both length fields
passed their check, `cfb8_init` returned 1, the decrypted verify token equals
the client's token as an unsigned 32-bit integer, the HTTPS transfer ended
without transport error and the status was 200; it then has performed the
handoff (SetCompression, LoginSuccess, state = play).  Whenever one of these
conditions fails it returns false, and whenever it returns false it has sent
no packet and left the connection state alone.  On a verify-token mismatch no
request is made to the session server. -/
theorem phd_handle_encryption_response_outcome (env : Env) (w : World) :
    let r := phd_handle_encryption_response env w
    (r.1 = true →
      er_accepted env w
      ∧ r.2.client.state = ltg_state.ltg_play
      ∧ sent_packets r.2.events
          = sent_packets w.events ++ [set_compression_packet env, login_success_packet r.2.client])
    ∧ (¬ er_accepted env w → r.1 = false)
    ∧ (r.1 = false →
        sent_packets r.2.events = sent_packets w.events ∧ r.2.client.state = w.client.state)
    ∧ (er_verify_key env w ≠ w.client.id →
        http_requests r.2.events = http_requests w.events) := by
  intro r
  have hr : r = phd_handle_encryption_response env w := rfl
  refine ⟨?_, ?_, ?_, ?_⟩
  · intro ht
    rcases phd_handle_encryption_response_cases env w with
      ⟨hacc, w', hf, h | h⟩ | ⟨_, hfalse, _, _⟩
    · rw [hr, h]
      refine ⟨hacc, ?_, ?_⟩
      · simp [phd_update_login_success_client]
      · simp only [phd_update_login_success_sent, hf.sent_packets_eq, er_after_request_sent,
          phd_update_login_success_client, login_success_packet]
    · rw [hr, h] at ht
      simp at ht
    · rw [hr, hfalse] at ht
      simp at ht
  · intro hna
    rcases phd_handle_encryption_response_cases env w with ⟨hacc, _⟩ | ⟨_, hfalse, _, _⟩
    · exact absurd hacc hna
    · exact hfalse
  · intro hf0
    rcases phd_handle_encryption_response_cases env w with
      ⟨hacc, w', hf, h | h⟩ | ⟨_, _, hstate, hsent⟩
    · rw [hr, h] at hf0
      simp at hf0
    · rw [hr, h]
      refine ⟨?_, ?_⟩
      · simp only [hf.sent_packets_eq, er_after_request_sent]
      · simp only [hf.state]
        rfl
    · exact ⟨hsent, hstate⟩
  · intro hne
    rw [hr, phd_handle_encryption_response_eq]
    by_cases h1 : er_secret_length env w > 128
    · simp [h1, http_requests_append, http_requests]
    by_cases h2 : er_enc_res env w = 1
    swap
    · simp [h1, h2, er_after_secret, World.emit, http_requests_append, http_requests]
    by_cases h3 : er_verify_length env w > 128
    · simp [h1, h2, h3, er_after_secret, http_requests_append, http_requests]
    · simp [h1, h2, h3, hne, er_after_secret, er_after_verify, http_requests_append,
        http_requests]

/-- C6 at concrete inputs: with session token 0xCAFEBABE, a response whose
verify token decrypts to 0xDEADBEEF is refused without any packet or request,
and a response with the right token and a 200 answer is accepted. -/
theorem phd_handle_encryption_response_outcome_witness :
    (phd_handle_encryption_response (ref_env true 256 200 mjson_val.null)
        (ref_world (ref_client 47 0xCAFEBABE)
          (16 :: List.range 16 ++ [4, 0xDE, 0xAD, 0xBE, 0xEF]))).1 = false
    ∧ (phd_handle_encryption_response (ref_env true 256 200 mjson_val.null)
        (ref_world (ref_client 47 0xCAFEBABE)
          (16 :: List.range 16 ++ [4, 0xDE, 0xAD, 0xBE, 0xEF]))).2.events.length = 5
    ∧ http_requests (phd_handle_encryption_response (ref_env true 256 200 mjson_val.null)
        (ref_world (ref_client 47 0xCAFEBABE)
          (16 :: List.range 16 ++ [4, 0xDE, 0xAD, 0xBE, 0xEF]))).2.events = []
    ∧ er_accepted (ref_env true 256 200 mjson_val.null)
        (ref_world (ref_client 47 0xCAFEBABE)
          (16 :: List.range 16 ++ [4, 0xCA, 0xFE, 0xBA, 0xBE])) :=
  ⟨(phd_handle_encryption_response_outcome (ref_env true 256 200 mjson_val.null)
      (ref_world (ref_client 47 0xCAFEBABE)
        (16 :: List.range 16 ++ [4, 0xDE, 0xAD, 0xBE, 0xEF]))).2.1 (by decide),
   by decide,
   (phd_handle_encryption_response_outcome (ref_env true 256 200 mjson_val.null)
      (ref_world (ref_client 47 0xCAFEBABE)
        (16 :: List.range 16 ++ [4, 0xDE, 0xAD, 0xBE, 0xEF]))).2.2.2 (by decide),
   ((phd_handle_encryption_response_outcome (ref_env true 256 200 mjson_val.null)
      (ref_world (ref_client 47 0xCAFEBABE)
        (16 :: List.range 16 ++ [4, 0xCA, 0xFE, 0xBA, 0xBE]))).1 (by decide)).1⟩

/-- Every call that gets past the check of the shared-secret length reads and
decrypts the secret and starts the cipher before anything else. -/
theorem phd_handle_encryption_response_events_secret (env : Env) (w : World)
    (h1 : ¬ er_secret_length env w > 128) :
    (er_after_secret env w).events <+: (phd_handle_encryption_response env w).2.events := by
  rw [phd_handle_encryption_response_eq]
  simp only [h1, if_false]
  by_cases h2 : er_enc_res env w = 1
  swap
  · simp [h2, World.emit]
  by_cases h3 : er_verify_length env w > 128
  · simp [h2, h3]
  by_cases h4 : er_verify_key env w = w.client.id
  swap
  · simp [h2, h3, h4, er_after_verify]
  by_cases h5 : w.curl = false ∧ env.curl_easy_init = false
  · simp [h2, h3, h4, h5, er_after_verify, World.emit]
  by_cases h6 : (er_curl env w).1 = CURLE_OK
  swap
  · simp [h2, h3, h4, h5, h6, er_after_verify, er_after_request, World.emit]
  by_cases h7 : (er_curl env w).2.1 = 200
  swap
  · simp [h2, h3, h4, h5, h6, h7, er_after_verify, er_after_request, World.emit]
  simp only [h2, h3, h4, h5, h6, h7, ne_eq, not_true_eq_false, not_false_eq_true, if_false,
    if_true]
  have hf := phd_auth_loop_frame env (env.mjson_read (er_curl env w).2.2)
    (mjson_get_size (env.mjson_read (er_curl env w).2.2)) 0 (er_after_request env w)
  cases hl : for_loop (phd_auth_body env (env.mjson_read (er_curl env w).2.2))
      (mjson_get_size (env.mjson_read (er_curl env w).2.2)) 0 (er_after_request env w) with
  | next w' =>
    rw [hl] at hf
    obtain ⟨n, hn⟩ := hf.events
    obtain ⟨c1, c2, c3, hu⟩ := phd_update_login_success_events env w'
    simp only [Flow.state] at hn
    simp [hu, hn, er_after_request, er_after_verify]
  | ret_false w' =>
    rw [hl] at hf
    obtain ⟨n, hn⟩ := hf.events
    simp only [Flow.state] at hn
    simp [hn, er_after_request, er_after_verify]

/-- Every call that gets past the check of the verify length reads and decrypts
the verify token next. -/
theorem phd_handle_encryption_response_events_verify (env : Env) (w : World)
    (h1 : ¬ er_secret_length env w > 128) (h2 : er_enc_res env w = 1)
    (h3 : ¬ er_verify_length env w > 128) :
    (er_after_verify env w).events <+: (phd_handle_encryption_response env w).2.events := by
  rw [phd_handle_encryption_response_eq]
  simp only [h1, h2, h3, if_false, ne_eq, not_true_eq_false]
  by_cases h4 : er_verify_key env w = w.client.id
  swap
  · simp [h4]
  by_cases h5 : w.curl = false ∧ env.curl_easy_init = false
  · simp [h4, h5, World.emit]
  by_cases h6 : (er_curl env w).1 = CURLE_OK
  swap
  · simp [h4, h5, h6, er_after_request, World.emit]
  by_cases h7 : (er_curl env w).2.1 = 200
  swap
  · simp [h4, h5, h6, h7, er_after_request, World.emit]
  simp only [h4, h5, h6, h7, ne_eq, not_true_eq_false, not_false_eq_true, if_false,
    if_true]
  have hf := phd_auth_loop_frame env (env.mjson_read (er_curl env w).2.2)
    (mjson_get_size (env.mjson_read (er_curl env w).2.2)) 0 (er_after_request env w)
  cases hl : for_loop (phd_auth_body env (env.mjson_read (er_curl env w).2.2))
      (mjson_get_size (env.mjson_read (er_curl env w).2.2)) 0 (er_after_request env w) with
  | next w' =>
    rw [hl] at hf
    obtain ⟨n, hn⟩ := hf.events
    obtain ⟨c1, c2, c3, hu⟩ := phd_update_login_success_events env w'
    simp only [Flow.state] at hn
    simp [hu, hn, er_after_request]
  | ret_false w' =>
    rw [hl] at hf
    obtain ⟨n, hn⟩ := hf.events
    simp only [Flow.state] at hn
    simp [hn, er_after_request]

/-- The part of C4 that holds: a length field greater than 128 makes the handler
return false at once, with nothing read into the buffer, no RSA decryption of
that field and no handoff (the only effects are the two log lines). -/
theorem phd_handle_encryption_response_oversized (env : Env) (w : World) :
    let r := phd_handle_encryption_response env w
    (er_secret_length env w > 128 →
      r.1 = false ∧ r.2.client = w.client
      ∧ r.2.events = w.events ++ [Event.log_error, Event.pck_log])
    ∧ (¬ er_secret_length env w > 128 → er_enc_res env w = 1 → er_verify_length env w > 128 →
      r.1 = false ∧ r.2.client.state = w.client.state
      ∧ r.2.events = (er_after_secret env w).events ++ [Event.log_error, Event.pck_log]) := by
  intro r
  have hr : r = phd_handle_encryption_response env w := rfl
  rw [hr, phd_handle_encryption_response_eq]
  refine ⟨?_, ?_⟩
  · intro h1
    simp [h1]
  · intro h1 h2 h3
    simp [h1, h2, h3]

/-- C4 (what the code does with a negative length): the handler checks only
`length > 128`, so a negative shared-secret length is handed to
`pck_read_bytes` and to `cry_rsa_decrypt` as it is, and so is a negative
verify length once the cipher is started. -/
theorem phd_handle_encryption_response_negative_length (env : Env) (w : World) :
    let r := phd_handle_encryption_response env w
    (er_secret_length env w < 0 →
      w.events ++ [Event.pck_read_bytes (er_secret_length env w),
        Event.cry_rsa_decrypt (er_secret_raw env w).1 (er_secret_length env w)]
        <+: r.2.events)
    ∧ (¬ er_secret_length env w > 128 → er_enc_res env w = 1 → er_verify_length env w < 0 →
      (er_after_secret env w).events ++ [Event.pck_read_bytes (er_verify_length env w),
        Event.cry_rsa_decrypt (er_verify_raw env w).1 (er_verify_length env w)]
        <+: r.2.events) := by
  intro r
  refine ⟨?_, ?_⟩
  · intro hneg
    have h1 : ¬ er_secret_length env w > 128 := by omega
    refine List.IsPrefix.trans ?_ (phd_handle_encryption_response_events_secret env w h1)
    simp [er_after_secret]
  · intro h1 h2 hneg
    have h3 : ¬ er_verify_length env w > 128 := by omega
    exact phd_handle_encryption_response_events_verify env w h1 h2 h3

/-- C4 at the failing input: the shared-secret length is the varint -1
(`ff ff ff ff 0f`), followed by a well-formed verify token. -/
theorem phd_handle_encryption_response_negative_length_witness :
    er_secret_length (ref_env true 256 200 mjson_val.null)
        (ref_world (ref_client 47 0xCAFEBABE)
          [0xff, 0xff, 0xff, 0xff, 0x0f, 4, 0xCA, 0xFE, 0xBA, 0xBE]) = -1
    ∧ [Event.pck_read_bytes (-1), Event.cry_rsa_decrypt [] (-1)]
        <+: (phd_handle_encryption_response (ref_env true 256 200 mjson_val.null)
          (ref_world (ref_client 47 0xCAFEBABE)
            [0xff, 0xff, 0xff, 0xff, 0x0f, 4, 0xCA, 0xFE, 0xBA, 0xBE])).2.events
    ∧ (phd_handle_encryption_response (ref_env true 256 200 mjson_val.null)
          (ref_world (ref_client 47 0xCAFEBABE)
            [0xff, 0xff, 0xff, 0xff, 0x0f, 4, 0xCA, 0xFE, 0xBA, 0xBE])).1 = true :=
  ⟨by decide,
   (phd_handle_encryption_response_negative_length (ref_env true 256 200 mjson_val.null)
      (ref_world (ref_client 47 0xCAFEBABE)
        [0xff, 0xff, 0xff, 0xff, 0x0f, 4, 0xCA, 0xFE, 0xBA, 0xBE])).1 (by decide),
   by decide⟩

theorem phd_handle_login_start_encryption (env : Env) (w : World) :
    (phd_handle_login_start env w).2.client.encryption = w.client.encryption := by
  simp only [phd_handle_login_start]
  split
  · simp [phd_send_disconnect_login, ltg_send, World.emit, ltg_client_set_username]
  · split
    · simp [phd_send_encryption_request, ltg_send, World.emit, ltg_client_set_username]
    · simp [phd_update_login_success_client, World.emit, ltg_client_set_username]

theorem phd_handle_login_plugin_response_client (env : Env) (w : World) :
    (phd_handle_login_plugin_response env w).2.client = w.client := by
  simp only [phd_handle_login_plugin_response]
  split <;> rfl

/-- The flag `encryption.enabled` after a call of the handler: untouched when
the call ends before or at the cipher initialisation, true in every other
case. -/
theorem phd_handle_encryption_response_enabled (env : Env) (w : World) :
    (phd_handle_encryption_response env w).2.client.encryption.enabled =
      if er_secret_length env w > 128 ∨ er_enc_res env w ≠ 1 then w.client.encryption.enabled
      else true := by
  rw [phd_handle_encryption_response_eq]
  by_cases h1 : er_secret_length env w > 128
  · simp [h1]
  by_cases h2 : er_enc_res env w = 1
  swap
  · simp [h1, h2, er_after_secret, World.emit]
  by_cases h3 : er_verify_length env w > 128
  · simp [h1, h2, h3]
  by_cases h4 : er_verify_key env w = w.client.id
  swap
  · simp [h1, h2, h3, h4, er_after_verify]
  by_cases h5 : w.curl = false ∧ env.curl_easy_init = false
  · simp [h1, h2, h3, h4, h5, er_after_verify, World.emit]
  by_cases h6 : (er_curl env w).1 = CURLE_OK
  swap
  · simp [h1, h2, h3, h4, h5, h6, er_after_verify, er_after_request, World.emit]
  by_cases h7 : (er_curl env w).2.1 = 200
  swap
  · simp [h1, h2, h3, h4, h5, h6, h7, er_after_verify, er_after_request, World.emit]
  simp only [h1, h2, h3, h4, h5, h6, h7, ne_eq, not_true_eq_false, not_false_eq_true, if_false,
    if_true, or_self]
  have hf := phd_auth_loop_frame env (env.mjson_read (er_curl env w).2.2)
    (mjson_get_size (env.mjson_read (er_curl env w).2.2)) 0 (er_after_request env w)
  cases hl : for_loop (phd_auth_body env (env.mjson_read (er_curl env w).2.2))
      (mjson_get_size (env.mjson_read (er_curl env w).2.2)) 0 (er_after_request env w) with
  | next w' =>
    rw [hl] at hf
    have he := hf.encryption
    simp only [Flow.state] at he
    simp [phd_update_login_success_client, he, er_after_request, er_after_verify]
  | ret_false w' =>
    rw [hl] at hf
    have he := hf.encryption
    simp only [Flow.state] at he
    simp [he, er_after_request, er_after_verify]

/-- C7, as stated, fails: with session token 0xCAFEBABE, a response whose verify
token decrypts to 0xDEADBEEF makes the handler return false, yet
`encryption.enabled`, false before the call, is true after it. -/
theorem encryption_enabled_after_failed_response :
    (phd_handle_encryption_response (ref_env true 256 200 mjson_val.null)
        (ref_world (ref_client 47 0xCAFEBABE)
          (16 :: List.range 16 ++ [4, 0xDE, 0xAD, 0xBE, 0xEF]))).1 = false
    ∧ (ref_world (ref_client 47 0xCAFEBABE)
          (16 :: List.range 16 ++ [4, 0xDE, 0xAD, 0xBE, 0xEF])).client.encryption.enabled = false
    ∧ (phd_handle_encryption_response (ref_env true 256 200 mjson_val.null)
        (ref_world (ref_client 47 0xCAFEBABE)
          (16 :: List.range 16 ++ [4, 0xDE, 0xAD, 0xBE, 0xEF]))).2.client.encryption.enabled
        = true := by
  decide

/-- C7, amended: `encryption.enabled` is set to true as soon as `cfb8_init` has
returned 1, before the verify token is looked at.  A call that fails at the
shared-secret length check or at the cipher initialisation returns false and
leaves the flag as it was; every call that gets past the cipher
initialisation leaves it true, whatever it returns.  `phd_handle_login_start`
and `phd_handle_login_plugin_response` do not touch `client->encryption`, and
once the flag is true no packet handled by `phd_login` sets it back. -/
theorem encryption_enabled_set_at_cipher_init (env : Env) (w : World) :
    let r := phd_handle_encryption_response env w
    ((er_secret_length env w > 128 ∨ er_enc_res env w ≠ 1) →
      r.1 = false ∧ r.2.client.encryption.enabled = w.client.encryption.enabled)
    ∧ (¬ er_secret_length env w > 128 → er_enc_res env w = 1 →
      r.2.client.encryption.enabled = true)
    ∧ (r.1 = true → r.2.client.encryption.enabled = true)
    ∧ (phd_handle_login_start env w).2.client.encryption = w.client.encryption
    ∧ (phd_handle_login_plugin_response env w).2.client.encryption = w.client.encryption
    ∧ (w.client.encryption.enabled = true →
        (phd_login env w).2.client.encryption.enabled = true) := by
  intro r
  have hr : r = phd_handle_encryption_response env w := rfl
  have hen := phd_handle_encryption_response_enabled env w
  refine ⟨?_, ?_, ?_, ?_, ?_, ?_⟩
  · intro h
    refine ⟨phd_handle_encryption_response_false_of_not_accepted env w ?_, ?_⟩
    · intro hacc
      rcases h with h | h
      · exact hacc.1 h
      · exact h hacc.2.1
    · rw [hr, hen, if_pos h]
  · intro h1 h2
    rw [hr, hen, if_neg]
    rintro (h | h)
    · exact h1 h
    · exact h h2
  · intro ht
    have hacc := phd_handle_encryption_response_accepted_of_true env w ht
    rw [hr, hen, if_neg]
    rintro (h | h)
    · exact hacc.1 h
    · exact h hacc.2.1
  · exact phd_handle_login_start_encryption env w
  · rw [phd_handle_login_plugin_response_client]
  · intro he
    simp only [phd_login]
    split
    · rw [phd_handle_login_start_encryption]
      exact he
    · split
      · rw [phd_handle_encryption_response_enabled]
        split
        · exact he
        · rfl
      · split
        · rw [phd_handle_login_plugin_response_client]
          exact he
        · exact he

/-- C7 amended, at a concrete input: a response that fails at the verify length
(200) has started the cipher, so the flag is true after the call. -/
theorem encryption_enabled_set_at_cipher_init_witness :
    ¬ er_secret_length (ref_env true 256 200 mjson_val.null)
        (ref_world (ref_client 47 0xCAFEBABE) (16 :: List.range 16 ++ [0xc8, 0x01])) > 128
    ∧ er_enc_res (ref_env true 256 200 mjson_val.null)
        (ref_world (ref_client 47 0xCAFEBABE) (16 :: List.range 16 ++ [0xc8, 0x01])) = 1
    ∧ (phd_handle_encryption_response (ref_env true 256 200 mjson_val.null)
        (ref_world (ref_client 47 0xCAFEBABE)
          (16 :: List.range 16 ++ [0xc8, 0x01]))).2.client.encryption.enabled = true
    ∧ (phd_handle_encryption_response (ref_env true 256 200 mjson_val.null)
        (ref_world (ref_client 47 0xCAFEBABE)
          (16 :: List.range 16 ++ [0xc8, 0x01]))).1 = false :=
  ⟨by decide, by decide,
   (encryption_enabled_set_at_cipher_init (ref_env true 256 200 mjson_val.null)
      (ref_world (ref_client 47 0xCAFEBABE) (16 :: List.range 16 ++ [0xc8, 0x01]))).2.1
      (by decide) (by decide),
   by decide⟩

/-! ## The username length (claim C5) -/

/-- C5 (what the code does): `phd_handle_login_start` never looks at the value
of the username length.  Whenever the protocol versions are equal it returns
true, stores the username as read, and sends the EncryptionRequest (online
mode) or SetCompression and LoginSuccess carrying that username (offline
mode), whatever the length varint is. -/
theorem phd_handle_login_start_length_unchecked (env : Env) (w : World)
    (hv : w.client.protocol = env.sky_get_protocol) :
    let r := phd_handle_login_start env w
    r.1 = true
    ∧ r.2.client.username = login_start_username env w
    ∧ (env.sky_is_online_mode = true →
        sent_packets r.2.events
          = sent_packets w.events ++ [encryption_request_packet env w.client])
    ∧ (env.sky_is_online_mode = false →
        sent_packets r.2.events
          = sent_packets w.events ++ [set_compression_packet env,
              login_success_packet { w.client with username := login_start_username env w }]) := by
  intro r
  have hr : r = phd_handle_login_start env w := rfl
  refine ⟨?_, ?_, ?_, ?_⟩
  · rw [hr]
    simp only [phd_handle_login_start]
    simp [hv, ltg_client_set_username, World.emit]
    split <;> rfl
  · rw [hr]
    simp only [phd_handle_login_start]
    simp [hv, ltg_client_set_username, World.emit]
    split
    · simp [phd_send_encryption_request, ltg_send, World.emit, login_start_username]
    · simp [phd_update_login_success_client, login_start_username]
  · intro ho
    rw [hr]
    simp only [phd_handle_login_start]
    simp [hv, ho, ltg_client_set_username, World.emit, phd_send_encryption_request, ltg_send,
      sent_packets_append, sent_packets, encryption_request_packet, PCK_INLINE,
      pck_write_var_int, pck_write_string, pck_write_bytes, pck_write_int32, UTL_CSTR]
  · intro ho
    rw [hr]
    simp only [phd_handle_login_start]
    simp [hv, ho, ltg_client_set_username, World.emit, phd_update_login_success_sent,
      sent_packets_append, sent_packets, login_start_username]

/-- C5 at the failing input: a LoginStart whose username length is 17, sent by a
protocol-47 client to the offline reference server, is accepted; the 17-byte
name is stored and sent back in LoginSuccess. -/
theorem phd_handle_login_start_length_unchecked_witness :
    (login_start_username (ref_env false 256 200 mjson_val.null)
        (ref_world (ref_client 47 7) (17 :: List.replicate 17 65))).length = 17
    ∧ (phd_handle_login_start (ref_env false 256 200 mjson_val.null)
        (ref_world (ref_client 47 7) (17 :: List.replicate 17 65))).1 = true
    ∧ (phd_handle_login_start (ref_env false 256 200 mjson_val.null)
        (ref_world (ref_client 47 7) (17 :: List.replicate 17 65))).2.client.username
      = { length := 17, value := List.replicate 17 65 }
    ∧ sent_packets (phd_handle_login_start (ref_env false 256 200 mjson_val.null)
        (ref_world (ref_client 47 7) (17 :: List.replicate 17 65))).2.events
      = [{ capacity := 15, endian := io_endianness.io_big_endian,
           writes := [pck_write.var_int 3, pck_write.var_int 256] },
         { capacity := 32, endian := io_endianness.io_big_endian,
           writes := [pck_write.var_int 2, pck_write.bytes (List.replicate 16 0) 16,
             pck_write.string (List.replicate 17 65) 17] }] :=
  ⟨by decide,
   (phd_handle_login_start_length_unchecked (ref_env false 256 200 mjson_val.null)
      (ref_world (ref_client 47 7) (17 :: List.replicate 17 65)) (by decide)).1,
   by decide, by decide⟩

/-! ## Dispatch (claim C9) -/

/-- C9, as stated, fails: `phd_login` keeps no record of the session's phase.
(a) A PluginResponse whose message id equals the client id is accepted though
nothing was ever sent to the client.  (b) An EncryptionResponse is handled, and
here even ends in the handoff, though no EncryptionRequest was sent.  (c) A
second LoginStart after the EncryptionRequest is handled again and answered
with a second EncryptionRequest. -/
theorem phd_login_ignores_phase :
    ((ref_world (ref_client 47 7) [0x02, 7, 1]).events = []
      ∧ (phd_login (ref_env true 256 200 mjson_val.null)
          (ref_world (ref_client 47 7) [0x02, 7, 1])).1 = true)
    ∧ ((ref_world (ref_client 47 0xCAFEBABE)
          (0x01 :: 16 :: List.range 16 ++ [4, 0xCA, 0xFE, 0xBA, 0xBE])).events = []
      ∧ (phd_login (ref_env true 256 200 mjson_val.null)
          (ref_world (ref_client 47 0xCAFEBABE)
            (0x01 :: 16 :: List.range 16 ++ [4, 0xCA, 0xFE, 0xBA, 0xBE]))).1 = true
      ∧ (phd_login (ref_env true 256 200 mjson_val.null)
          (ref_world (ref_client 47 0xCAFEBABE)
            (0x01 :: 16 :: List.range 16 ++ [4, 0xCA, 0xFE, 0xBA, 0xBE]))).2.client.state
          = ltg_state.ltg_play)
    ∧ ((phd_login (ref_env true 256 200 mjson_val.null)
          { (phd_login (ref_env true 256 200 mjson_val.null)
              (ref_world (ref_client 47 7) (0x00 :: 4 :: UTL_CSTR "Alex"))).2 with
            packet := { bytes := 0x00 :: 4 :: UTL_CSTR "Alex", cursor := 0 } }).1 = true
      ∧ (sent_packets (phd_login (ref_env true 256 200 mjson_val.null)
          { (phd_login (ref_env true 256 200 mjson_val.null)
              (ref_world (ref_client 47 7) (0x00 :: 4 :: UTL_CSTR "Alex"))).2 with
            packet := { bytes := 0x00 :: 4 :: UTL_CSTR "Alex", cursor := 0 } }).2.events).length
          = 2) := by
  decide

/-- C9, amended: `phd_login` dispatches on the packet ID alone.  Every ID outside
0x00, 0x01, 0x02 makes it return false with a logged warning and without
calling any handler; ID 0x00 is handed to `phd_handle_login_start`, 0x01 to
`phd_handle_encryption_response` and 0x02 to `phd_handle_login_plugin_response`,
whatever was sent or received before; and the plugin-response handler returns
true exactly when the message id, as a `uint32_t`, equals the client id. -/
theorem phd_login_dispatch (env : Env) (w : World) :
    let id := (env.pck_read_var_int w.packet).1
    let w' : World := { w with packet := (env.pck_read_var_int w.packet).2 }
    (id ≠ 0x00 → id ≠ 0x01 → id ≠ 0x02 →
      phd_login env w = (false, { w' with events := w.events ++ [Event.log_warn] }))
    ∧ (id = 0x00 → phd_login env w = phd_handle_login_start env w')
    ∧ (id = 0x01 → phd_login env w = phd_handle_encryption_response env w')
    ∧ (id = 0x02 → phd_login env w = phd_handle_login_plugin_response env w')
    ∧ ((phd_handle_login_plugin_response env w').1 = true
        ↔ ((env.pck_read_var_int w'.packet).1 % 2 ^ 32).toNat = w.client.id) := by
  intro id w'
  refine ⟨?_, ?_, ?_, ?_, ?_⟩
  · intro h0 h1 h2
    simp only [phd_login]
    rw [if_neg h0, if_neg h1, if_neg h2]
    rfl
  · intro h0
    simp only [phd_login]
    rw [if_pos h0]
  · intro h1
    have h0 : id ≠ 0x00 := by rw [h1]; decide
    simp only [phd_login]
    rw [if_neg h0, if_pos h1]
  · intro h2
    have h0 : id ≠ 0x00 := by rw [h2]; decide
    have h1 : id ≠ 0x01 := by rw [h2]; decide
    simp only [phd_login]
    rw [if_neg h0, if_neg h1, if_pos h2]
  · simp only [phd_handle_login_plugin_response]
    split
    · rename_i h
      simp only [Bool.false_eq_true, false_iff]
      exact h
    · rename_i h
      simp only [true_iff]
      exact not_not.mp h

/-- C9 amended, at a concrete input: packet ID 0x05 is refused with a warning
and nothing else happens. -/
theorem phd_login_dispatch_witness :
    phd_login (ref_env true 256 200 mjson_val.null) (ref_world (ref_client 47 7) [0x05, 1, 2])
      = (false, { client := ref_client 47 7, packet := { bytes := [0x05, 1, 2], cursor := 1 },
                  curl := false, events := [Event.log_warn] }) :=
  (phd_login_dispatch (ref_env true 256 200 mjson_val.null)
    (ref_world (ref_client 47 7) [0x05, 1, 2])).1 (by decide) (by decide) (by decide)

/-! ## Buffer sizes of the hasJoined request (claim C10) -/

theorem c_str_length_le (b : List Nat) : (c_str b).length ≤ b.length := by
  unfold c_str
  induction b with
  | nil => simp
  | cons x xs ih =>
    simp only [List.takeWhile]
    split
    · simp only [List.length_cons]
      omega
    · simp

theorem sprintf_request_length (u s : List Nat) :
    (sprintf_request u s).length = 80 + (c_str u).length + (c_str s).length := by
  have h1 : (UTL_CSTR
      "https://sessionserver.mojang.com/session/minecraft/hasJoined?username=").length = 70 := by
    decide
  have h2 : (UTL_CSTR "&serverId=").length = 10 := by decide
  simp only [sprintf_request, List.length_append, h1, h2]
  omega

/-- C10: with a 20-byte digest the `server_id` buffer has 42 bytes, enough for
an optional sign, at most 40 hexadecimal digits and the terminating NUL.  The
formatted URL needs `80 + |u| + |s| + 1` bytes, which is at most the 98 + 40 =
138 bytes of `request` for every username of at most 16 bytes and every
`server_id` of at most 41 characters, and is more than 138 for some such
`server_id` as soon as the username has 17 characters or more. -/
theorem request_buffer_fits_username_limit :
    server_id_size 20 = 42
    ∧ (∀ sign digits : List Nat, sign.length ≤ 1 → digits.length ≤ 40 →
        (sign ++ digits).length + 1 ≤ server_id_size 20)
    ∧ request_size 20 = 98 + 40
    ∧ (∀ u s : List Nat,
        (sprintf_request u s).length + 1 = 80 + (c_str u).length + (c_str s).length + 1)
    ∧ (∀ u s : List Nat, u.length ≤ 16 → s.length ≤ 41 →
        (sprintf_request u s).length + 1 ≤ request_size 20)
    ∧ (∀ u : List Nat, 17 ≤ (c_str u).length →
        ∃ s : List Nat, s.length ≤ 41 ∧ request_size 20 < (sprintf_request u s).length + 1) := by
  have hs : server_id_size 20 = 42 := by decide
  have hq : request_size 20 = 138 := by decide
  refine ⟨hs, ?_, hq, ?_, ?_, ?_⟩
  · intro sign digits h1 h2
    rw [hs, List.length_append]
    omega
  · intro u s
    rw [sprintf_request_length]
  · intro u s hu hl
    have h1 := c_str_length_le u
    have h2 := c_str_length_le s
    rw [sprintf_request_length, hq]
    omega
  · intro u hu
    refine ⟨List.replicate 41 97, by simp, ?_⟩
    have h : (c_str (List.replicate 41 97)).length = 41 := by decide
    rw [sprintf_request_length, hq, h]
    omega

/-- C10 at concrete inputs: the 16-character name "ABCDEFGHIJKLMNOP" with a
41-character `server_id` needs exactly 138 bytes, and a 17-character name with
the same `server_id` needs 139. -/
theorem request_buffer_fits_username_limit_witness :
    (sprintf_request (UTL_CSTR "ABCDEFGHIJKLMNOP")
        (UTL_CSTR "-25c65c11a194b4f2cdaa40106a9fe76f5027f8f7")).length + 1 ≤ request_size 20
    ∧ (∃ s : List Nat, s.length ≤ 41
        ∧ request_size 20 < (sprintf_request (UTL_CSTR "ABCDEFGHIJKLMNOPQ") s).length + 1) :=
  ⟨request_buffer_fits_username_limit.2.2.2.2.1 (UTL_CSTR "ABCDEFGHIJKLMNOP")
      (UTL_CSTR "-25c65c11a194b4f2cdaa40106a9fe76f5027f8f7") (by decide) (by decide),
   request_buffer_fits_username_limit.2.2.2.2.2 (UTL_CSTR "ABCDEFGHIJKLMNOPQ") (by decide)⟩

theorem be_value_foldl_lt (b : List Nat) (hb : ∀ x ∈ b, x < 256) :
    ∀ (acc k : Nat), acc < 256 ^ k →
      b.foldl (fun a x => a * 256 + x) acc < 256 ^ (k + b.length) := by
  induction b with
  | nil => intro acc k h; simpa using h
  | cons x xs ih =>
    intro acc k h
    have hx : x < 256 := hb x (List.mem_cons_self x xs)
    have hstep : acc * 256 + x < 256 ^ (k + 1) := by
      rw [pow_succ]
      omega
    have := ih (fun y hy => hb y (List.mem_cons_of_mem x hy)) (acc * 256 + x) (k + 1) hstep
    simpa [List.foldl, Nat.add_assoc, Nat.add_comm 1] using this

/-- The rendering of the specification, applied to a 20-byte digest, has at most
41 characters and so fits the 42-byte `server_id` buffer together with its
terminating NUL. -/
theorem ref_to_minecraft_hex_fits (hash : List Nat) (hb : ∀ x ∈ hash, x < 256) :
    (ref_to_minecraft_hex hash 20).length + 1 ≤ server_id_size 20 := by
  have hs : server_id_size 20 = 42 := by decide
  have hlt : be_value (hash.take 20) < 256 ^ 20 := by
    have h := be_value_foldl_lt (hash.take 20)
      (fun x hx => hb x (List.mem_of_mem_take hx)) 0 0 (by norm_num)
    have hlen : (hash.take 20).length ≤ 20 := by
      rw [List.length_take]
      omega
    calc be_value (hash.take 20) < 256 ^ (0 + (hash.take 20).length) := h
      _ ≤ 256 ^ 20 := Nat.pow_le_pow_right (by norm_num) (by omega)
  have hpow : (256 : Nat) ^ 20 = 16 ^ 40 := by norm_num
  have hdig : ∀ m : Nat, m < 16 ^ 40 → (Nat.toDigits 16 m).length ≤ 40 := fun m hm =>
    Nat.toDigitsCore_length 16 (by norm_num) (m + 1) m 40 hm (by norm_num)
  rw [hs]
  unfold ref_to_minecraft_hex
  simp only []
  split
  · have h2 : 2 ^ (8 * 20) - be_value (hash.take 20) < 16 ^ 40 := by
      have : (2 : Nat) ^ (8 * 20) = 16 ^ 40 := by norm_num
      have hpos : 0 < be_value (hash.take 20) := by
        rename_i hge
        exact lt_of_lt_of_le (by positivity) hge
      omega
    have := hdig _ h2
    simp only [List.length_cons, List.length_map]
    omega
  · have := hdig _ (hpow ▸ hlt)
    simp only [List.length_map]
    omega

/-! ## Parsing the session server's answer (claim C8) -/

/-- C8, as stated, fails: the handler reads the answer by position, not by key.
With the members of the textures entry in the order value, name, signature
(a permutation of name, value, signature) it returns false where the canonical
order returns true; with the top-level members in the order name, id,
properties it records the id string as the username.  And an answer in the
canonical order whose properties hold another entry before the textures entry
is refused, so the strings of its textures entry are never recorded. -/
theorem phd_auth_parsing_is_positional :
    List.Perm [ref_member_value, ref_member_name, ref_member_signature]
      [ref_member_name, ref_member_value, ref_member_signature]
    ∧ List.Perm
        [ref_member_username, ref_member_id,
          ref_member_properties [ref_member_name, ref_member_value, ref_member_signature]]
        [ref_member_id, ref_member_username,
          ref_member_properties [ref_member_name, ref_member_value, ref_member_signature]]
    ∧ (phd_handle_encryption_response
        (ref_env true 256 200 (mjson_val.object [ref_member_id, ref_member_username,
          ref_member_properties [ref_member_name, ref_member_value, ref_member_signature]]))
        ref_response_world).1 = true
    ∧ (phd_handle_encryption_response
        (ref_env true 256 200 (mjson_val.object [ref_member_id, ref_member_username,
          ref_member_properties [ref_member_name, ref_member_value, ref_member_signature]]))
        ref_response_world).2.client.username.value = UTL_CSTR "Notch"
    ∧ (phd_handle_encryption_response
        (ref_env true 256 200 (mjson_val.object [ref_member_id, ref_member_username,
          ref_member_properties [ref_member_value, ref_member_name, ref_member_signature]]))
        ref_response_world).1 = false
    ∧ (phd_handle_encryption_response
        (ref_env true 256 200 (mjson_val.object [ref_member_username, ref_member_id,
          ref_member_properties [ref_member_name, ref_member_value, ref_member_signature]]))
        ref_response_world).2.client.username.value
        = UTL_CSTR "069a79f444e94726a5befca90e38aaf5"
    ∧ (phd_handle_encryption_response
        (ref_env true 256 200 (mjson_val.object [ref_member_id, ref_member_username,
          (UTL_CSTR "properties", mjson_val.array
            [mjson_val.object [(UTL_CSTR "name", mjson_val.string (UTL_CSTR "cape")),
               ref_member_value, ref_member_signature],
             mjson_val.object [ref_member_name, ref_member_value, ref_member_signature]])]))
        ref_response_world).1 = false
    ∧ (phd_handle_encryption_response
        (ref_env true 256 200 (mjson_val.object [ref_member_id, ref_member_username,
          (UTL_CSTR "properties", mjson_val.array
            [mjson_val.object [(UTL_CSTR "name", mjson_val.string (UTL_CSTR "cape")),
               ref_member_value, ref_member_signature],
             mjson_val.object [ref_member_name, ref_member_value, ref_member_signature]])]))
        ref_response_world).2.client.textures.value = { length := 0, value := [] } :=
  ⟨List.Perm.swap _ _ _, List.Perm.swap _ _ _, by decide, by decide, by decide, by decide,
   by decide, by decide⟩

theorem c_str_textures : c_str (UTL_CSTR "textures") = UTL_CSTR "textures" := by decide

theorem mjson_arr_get_entry (pre tl : List auth_entry_t) (e : auth_entry_t) :
    mjson_arr_get (mjson_val.array ((pre ++ e :: tl).map auth_entry_t.json)) pre.length
      = e.json := by
  have hlen : (pre.map auth_entry_t.json).length ≤ pre.length := by simp
  simp only [mjson_arr_get, List.map_append, List.map_cons, List.get?_eq_getElem?]
  rw [List.getElem?_append_right hlen]
  simp

theorem phd_auth_properties_body_textures (properties : mjson_val) (j : Nat) (w : World)
    (e : auth_entry_t) (h : mjson_arr_get properties j = e.json)
    (ht : c_str e.first = UTL_CSTR "textures") :
    phd_auth_properties_body properties j w = Flow.next (record_textures w e) := by
  simp [phd_auth_properties_body, h, auth_entry_t.json, mjson_get_size, for_loop,
    phd_auth_property_body, mjson_obj_get, mjson_get_string, ht, record_textures]

theorem phd_auth_properties_body_other (properties : mjson_val) (j : Nat) (w : World)
    (e : auth_entry_t) (h : mjson_arr_get properties j = e.json)
    (hn : c_str e.first ≠ UTL_CSTR "textures") :
    phd_auth_properties_body properties j w = Flow.ret_false (w.emit Event.log_error) := by
  simp [phd_auth_properties_body, h, auth_entry_t.json, mjson_get_size, for_loop,
    phd_auth_property_body, mjson_obj_get, mjson_get_string, hn]

theorem phd_auth_properties_loop (es pre : List auth_entry_t) (w : World)
    (hes : ∀ e ∈ es, c_str e.first = UTL_CSTR "textures") :
    for_loop (phd_auth_properties_body (mjson_val.array ((pre ++ es).map auth_entry_t.json)))
      es.length pre.length w
    = Flow.next (es.foldl record_textures w) := by
  induction es generalizing pre w with
  | nil => rfl
  | cons e es ih =>
    have hstep := ih (pre ++ [e]) (record_textures w e)
      (fun x hx => hes x (List.mem_cons_of_mem e hx))
    simp only [List.append_assoc, List.singleton_append, List.length_append, List.length_singleton]
      at hstep
    simp only [List.length_cons, for_loop,
      phd_auth_properties_body_textures _ _ _ e (mjson_arr_get_entry pre es e)
        (hes e (List.mem_cons_self e es)),
      List.foldl_cons]
    exact hstep

theorem phd_auth_properties_loop_other (good pre rest : List auth_entry_t) (bad : auth_entry_t)
    (w : World) (hgood : ∀ e ∈ good, c_str e.first = UTL_CSTR "textures")
    (hbad : c_str bad.first ≠ UTL_CSTR "textures") :
    for_loop
      (phd_auth_properties_body
        (mjson_val.array ((pre ++ (good ++ bad :: rest)).map auth_entry_t.json)))
      (good ++ bad :: rest).length pre.length w
    = Flow.ret_false ((good.foldl record_textures w).emit Event.log_error) := by
  induction good generalizing pre w with
  | nil =>
    simp only [List.nil_append, List.length_cons, for_loop,
      phd_auth_properties_body_other _ _ _ bad (mjson_arr_get_entry pre rest bad) hbad,
      List.foldl_nil]
  | cons e good ih =>
    have hstep := ih (pre ++ [e]) (record_textures w e)
      (fun x hx => hgood x (List.mem_cons_of_mem e hx))
    simp only [List.append_assoc, List.singleton_append, List.length_append, List.length_singleton]
      at hstep
    simp only [List.cons_append, List.length_cons, for_loop,
      phd_auth_properties_body_textures _ _ _ e
        (mjson_arr_get_entry pre (good ++ bad :: rest) e) (hgood e (List.mem_cons_self e good)),
      List.foldl_cons]
    have hlen : (good.append (bad :: rest)).length = good.length + (bad :: rest).length :=
      List.length_append good (bad :: rest)
    rw [hlen]
    exact hstep

theorem foldl_record_textures_identity (es : List auth_entry_t) (w : World) :
    (es.foldl record_textures w).client.uuid = w.client.uuid
    ∧ (es.foldl record_textures w).client.username = w.client.username := by
  induction es generalizing w with
  | nil => exact ⟨rfl, rfl⟩
  | cons e es ih =>
    rw [List.foldl_cons]
    exact ⟨(ih (record_textures w e)).1, (ih (record_textures w e)).2⟩

theorem foldl_record_textures_textures (es : List auth_entry_t) (w : World) :
    (es.foldl record_textures w).client.textures = textures_after w.client.textures es := by
  induction es using List.reverseRecOn with
  | nil => rfl
  | append_singleton es e _ =>
    simp [List.foldl_append, record_textures, textures_after]

/-- The loop over the top-level members of an answer comes down to recording the
first two members and running the loop over the entries. -/
theorem phd_auth_loop_answer (env : Env) (w : World) (l0 l1 l2 first second : List Nat)
    (es : List auth_entry_t) :
    for_loop (phd_auth_body env (auth_answer l0 l1 l2 first second es))
      (mjson_get_size (auth_answer l0 l1 l2 first second es)) 0 w
    = for_loop (phd_auth_properties_body (mjson_val.array (es.map auth_entry_t.json)))
        es.length 0 (record_identity env w first second) := by
  simp only [auth_answer, mjson_get_size, List.length_cons, List.length_nil, for_loop,
    phd_auth_body, mjson_obj_get, mjson_get_string, List.get?, Option.getD, List.length_map,
    List.take_length]
  by_cases hc : w.client.username.length ≠ (second.length : Int)
      ∨ w.client.username.value.take w.client.username.length.toNat
        ≠ second.take w.client.username.length.toNat
  · rw [if_pos hc]
    simp only [for_loop, record_identity, if_pos hc]
    split <;> rename_i heq <;> rw [heq]
  · rw [if_neg hc]
    simp only [for_loop, record_identity, if_neg hc]
    split <;> rename_i heq <;> rw [heq]

theorem record_identity_username (env : Env) (w : World) (id name : List Nat) :
    (record_identity env w id name).client.username.length = name.length
    ∧ (record_identity env w id name).client.username.value.take name.length = name := by
  by_cases hc : w.client.username.length ≠ (name.length : Int)
      ∨ w.client.username.value.take w.client.username.length.toNat
        ≠ name.take w.client.username.length.toNat
  · simp only [record_identity, if_pos hc, List.take_length, and_self]
  · simp only [record_identity, if_neg hc]
    have h1 : w.client.username.length = (name.length : Int) := by
      by_contra h
      exact hc (Or.inl h)
    have h2 : w.client.username.value.take w.client.username.length.toNat
        = name.take w.client.username.length.toNat := by
      by_contra h
      exact hc (Or.inr h)
    refine ⟨h1, ?_⟩
    rw [h1, Int.toNat_ofNat, List.take_length] at h2
    exact h2

/-- C8, amended: the session server's answer is read by position and the member
names are never looked at.  Whatever the three top-level labels and the labels
inside the entries are, an accepted response decodes the uuid from the string
of the first top-level member, takes the string of the second as the username,
and treats the third as the properties array, reading in each entry the first
member as its name, the second as its value and the third as its signature.
When every entry has the name "textures" the handler returns true and the
recorded textures value and signature are the second and third strings of the
last entry, byte for byte (the previous textures when there is no entry).
When an entry has another name the handler returns false at that entry, with
the textures of the entries before it recorded. -/
theorem phd_handle_encryption_response_positional (env : Env) (w : World)
    (l0 l1 l2 first second : List Nat) (good : List auth_entry_t)
    (hacc : er_accepted env w)
    (hgood : ∀ e ∈ good, c_str e.first = UTL_CSTR "textures") :
    let r := phd_handle_encryption_response env w
    (env.mjson_read (er_curl env w).2.2 = auth_answer l0 l1 l2 first second good →
      r.1 = true
      ∧ r.2.client.uuid = env.utl_read_hex_bytes first 16
      ∧ r.2.client.username.length = second.length
      ∧ r.2.client.username.value.take second.length = second
      ∧ r.2.client.textures = textures_after w.client.textures good)
    ∧ (∀ (bad : auth_entry_t) (rest : List auth_entry_t),
        c_str bad.first ≠ UTL_CSTR "textures" →
        env.mjson_read (er_curl env w).2.2
          = auth_answer l0 l1 l2 first second (good ++ bad :: rest) →
        r.1 = false
        ∧ r.2.client.uuid = env.utl_read_hex_bytes first 16
        ∧ r.2.client.textures = textures_after w.client.textures good) := by
  intro r
  obtain ⟨h1, h2, h3, h4, h5, h6, h7⟩ := hacc
  have hid := foldl_record_textures_identity good
    (record_identity env (er_after_request env w) first second)
  have htex := foldl_record_textures_textures good
    (record_identity env (er_after_request env w) first second)
  have hname := record_identity_username env (er_after_request env w) first second
  refine ⟨?_, ?_⟩
  · intro hdoc
    have hloop := phd_auth_properties_loop good []
      (record_identity env (er_after_request env w) first second) hgood
    simp only [List.nil_append, List.length_nil] at hloop
    have hr : r = (true, phd_update_login_success env
        (good.foldl record_textures
          (record_identity env (er_after_request env w) first second))) := by
      show phd_handle_encryption_response env w = _
      rw [phd_handle_encryption_response_eq]
      simp only [h1, h2, h3, h4, h5, h6, h7, ne_eq, not_true_eq_false, not_false_eq_true,
        if_false, if_true]
      rw [hdoc, phd_auth_loop_answer, hloop]
    rw [hr]
    simp only [phd_update_login_success_client, hid.1, hid.2, hname.1, hname.2, htex, true_and]
    exact ⟨rfl, rfl⟩
  · intro bad rest hbad hdoc
    have hloop := phd_auth_properties_loop_other good [] rest bad
      (record_identity env (er_after_request env w) first second) hgood hbad
    simp only [List.nil_append, List.length_nil] at hloop
    have hr : r = (false, (good.foldl record_textures
          (record_identity env (er_after_request env w) first second)).emit Event.log_error) := by
      show phd_handle_encryption_response env w = _
      rw [phd_handle_encryption_response_eq]
      simp only [h1, h2, h3, h4, h5, h6, h7, ne_eq, not_true_eq_false, not_false_eq_true,
        if_false, if_true]
      rw [hdoc, phd_auth_loop_answer, hloop]
    rw [hr]
    simp only [World.emit, hid.1, htex, true_and]
    exact ⟨rfl, rfl⟩

/-- C8 amended, at concrete answers.  The answer of the specification's scenario
(id 069a79f4..., name "Notch", one textures entry with value "ey" and
signature "Abc") is accepted and recorded; the same answer with a "cape" entry
in front of the textures entry is refused. -/
theorem phd_handle_encryption_response_positional_witness :
    er_accepted
      (ref_env true 256 200 (auth_answer (UTL_CSTR "id") (UTL_CSTR "name")
        (UTL_CSTR "properties") (UTL_CSTR "069a79f444e94726a5befca90e38aaf5")
        (UTL_CSTR "Notch") [textures_entry (UTL_CSTR "ey") (UTL_CSTR "Abc")]))
      ref_response_world
    ∧ ((phd_handle_encryption_response
        (ref_env true 256 200 (auth_answer (UTL_CSTR "id") (UTL_CSTR "name")
          (UTL_CSTR "properties") (UTL_CSTR "069a79f444e94726a5befca90e38aaf5")
          (UTL_CSTR "Notch") [textures_entry (UTL_CSTR "ey") (UTL_CSTR "Abc")]))
        ref_response_world).1 = true
      ∧ (phd_handle_encryption_response
        (ref_env true 256 200 (auth_answer (UTL_CSTR "id") (UTL_CSTR "name")
          (UTL_CSTR "properties") (UTL_CSTR "069a79f444e94726a5befca90e38aaf5")
          (UTL_CSTR "Notch") [textures_entry (UTL_CSTR "ey") (UTL_CSTR "Abc")]))
        ref_response_world).2.client.uuid
        = [0x06, 0x9a, 0x79, 0xf4, 0x44, 0xe9, 0x47, 0x26, 0xa5, 0xbe, 0xfc, 0xa9, 0x0e, 0x38,
           0xaa, 0xf5]
      ∧ (phd_handle_encryption_response
        (ref_env true 256 200 (auth_answer (UTL_CSTR "id") (UTL_CSTR "name")
          (UTL_CSTR "properties") (UTL_CSTR "069a79f444e94726a5befca90e38aaf5")
          (UTL_CSTR "Notch") [textures_entry (UTL_CSTR "ey") (UTL_CSTR "Abc")]))
        ref_response_world).2.client.textures
        = { value := { length := 2, value := UTL_CSTR "ey" },
            signature := { length := 3, value := UTL_CSTR "Abc" } })
    ∧ (phd_handle_encryption_response
        (ref_env true 256 200 (auth_answer (UTL_CSTR "id") (UTL_CSTR "name")
          (UTL_CSTR "properties") (UTL_CSTR "069a79f444e94726a5befca90e38aaf5")
          (UTL_CSTR "Notch")
          [{ textures_entry (UTL_CSTR "ey") (UTL_CSTR "Abc") with first := UTL_CSTR "cape" },
           textures_entry (UTL_CSTR "ey") (UTL_CSTR "Abc")]))
        ref_response_world).1 = false :=
  ⟨by decide,
   ⟨((phd_handle_encryption_response_positional
        (ref_env true 256 200 (auth_answer (UTL_CSTR "id") (UTL_CSTR "name")
          (UTL_CSTR "properties") (UTL_CSTR "069a79f444e94726a5befca90e38aaf5")
          (UTL_CSTR "Notch") [textures_entry (UTL_CSTR "ey") (UTL_CSTR "Abc")]))
        ref_response_world (UTL_CSTR "id") (UTL_CSTR "name") (UTL_CSTR "properties")
        (UTL_CSTR "069a79f444e94726a5befca90e38aaf5") (UTL_CSTR "Notch")
        [textures_entry (UTL_CSTR "ey") (UTL_CSTR "Abc")] (by decide) (by decide)).1 rfl).1,
     by decide, by decide⟩,
   ((phd_handle_encryption_response_positional
      (ref_env true 256 200 (auth_answer (UTL_CSTR "id") (UTL_CSTR "name")
        (UTL_CSTR "properties") (UTL_CSTR "069a79f444e94726a5befca90e38aaf5")
        (UTL_CSTR "Notch")
        [{ textures_entry (UTL_CSTR "ey") (UTL_CSTR "Abc") with first := UTL_CSTR "cape" },
         textures_entry (UTL_CSTR "ey") (UTL_CSTR "Abc")]))
      ref_response_world (UTL_CSTR "id") (UTL_CSTR "name") (UTL_CSTR "properties")
      (UTL_CSTR "069a79f444e94726a5befca90e38aaf5") (UTL_CSTR "Notch")
      [] (by decide) (by decide)).2
      { textures_entry (UTL_CSTR "ey") (UTL_CSTR "Abc") with first := UTL_CSTR "cape" }
      [textures_entry (UTL_CSTR "ey") (UTL_CSTR "Abc")] (by decide) rfl).1⟩

end MotorMC
